import Mathlib

/-! Verification of the pickup coil winder firmware (pickup_winder.ino,
    version 1.2.0) against its design specification.

    Shallow embedding conventions:
    * AVR C `int` / `long` / `unsigned long` values are modelled as `ℤ` / `ℕ`
      (sizes only matter for the EEPROM layout, where they are made explicit).
    * `float` quantities are modelled as `ℚ`; an IEEE-754 NaN can only enter
      through `EEPROM.get`, so exactly there floats are modelled as `Option ℚ`
      with `none` for NaN (every comparison against a NaN in the firmware is
      shielded by an `isnan` test that we mirror with the `Option` match).
    * A C float-to-integer cast truncates toward zero (`ratTrunc`, `truncR`).
    * `cos` from the C library is modelled by `Real.cos`, so the two
      S-curve functions are the only noncomputable definitions.
    * C undefined behaviour (null-pointer `strcmp`, integer division by zero)
      is modelled by an explicit `none` / `CmdResult.undef` result.
    * Serial output is modelled as a list of tagged messages; the exact text
      of most prints is abbreviated, only the category tags matter here. -/

namespace PickupWinder

/-- Truncation toward zero of a rational, the semantics of a C cast from a
    (non-overflowing) floating value to `long`/`int`. -/
def ratTrunc (q : ℚ) : ℤ := if 0 ≤ q then ⌊q⌋ else ⌈q⌉

/-- Truncation toward zero of a real, the semantics of the C cast
    `(int)(delayRange * multiplier)` in calculateSCurveDelay. -/
noncomputable def truncR (x : ℝ) : ℤ := if 0 ≤ x then ⌊x⌋ else ⌈x⌉

/-- The Arduino `PI` macro constant (the C literal; the embedding keeps it as
    an exact rational, the float stored by the compiler is the nearest
    binary32 to this value). -/
def piFloat : ℚ := 3.1415926535897932384626433832795

/-- `COPPER_RESISTIVITY = 1.68E-8` Ohm-metres. -/
def copperResistivity : ℚ := 168 / 10000000000

/-! C string-to-number parsing (`atof` / `atol` / `atoi`): optional sign,
    a run of decimal digits, and (for `atof`) an optional fraction part;
    parsing stops at the first other character, and a string with no leading
    digits parses as 0.  (The firmware protocol never uses exponent
    notation, which is therefore not modelled.) -/

def digitsAcc : List Char → ℕ → ℕ × List Char
  | [], acc => (acc, [])
  | c :: rest, acc =>
    if c.isDigit then digitsAcc rest (10 * acc + (c.toNat - 48)) else (acc, c :: rest)

def fracAcc : List Char → ℚ → ℚ → ℚ
  | [], acc, _ => acc
  | c :: rest, acc, scale =>
    if c.isDigit then fracAcc rest (acc + scale * ((c.toNat : ℚ) - 48)) (scale / 10) else acc

def atofCore (l : List Char) : ℚ :=
  let p := digitsAcc l 0
  match p.2 with
  | c :: frac => if c = '.' then (p.1 : ℚ) + fracAcc frac 0 (1 / 10) else (p.1 : ℚ)
  | [] => (p.1 : ℚ)

def atofQ (str : String) : ℚ :=
  match str.toList with
  | [] => 0
  | c :: rest =>
    if c = '-' then -(atofCore rest)
    else if c = '+' then atofCore rest
    else atofCore (c :: rest)

def atolZ (str : String) : ℤ :=
  match str.toList with
  | [] => 0
  | c :: rest =>
    if c = '-' then -(((digitsAcc rest 0).1 : ℤ))
    else if c = '+' then ((digitsAcc rest 0).1 : ℤ)
    else ((digitsAcc (c :: rest) 0).1 : ℤ)

/-- Boolean prefix test on character lists (executable stand-in for the
    firmware's `strncmp(cmd, lit, strlen(lit)) == 0` checks). -/
def charsPre : List Char → List Char → Bool
  | [], _ => true
  | _ :: _, [] => false
  | c :: cs, d :: ds => c = d && charsPre cs ds

def strPre (p s : String) : Bool := charsPre p.toList s.toList

/-- `enum SweepControlMode`.  `gui` is the mode the spec calls HOST. -/
inductive SweepControlMode
  | firmware
  | gui
  | pattern
deriving DecidableEq

/-- Serial output lines, tagged by their category prefix.  `report` stands
    for the multi-line dump printed by `printStatus()`. -/
inductive Msg
  | status (m : String)
  | param (m : String)
  | info (m : String)
  | warn (m : String)
  | error (m : String)
  | report
deriving DecidableEq

/-- The firmware's global mutable state (the SETTINGS block, the sweep
    pattern overlay, and the three output pins / servo attachment that the
    commands drive).  `stepsPerTurn` is a global the firmware never
    reassigns (always 3200). -/
structure WinderState where
  targetTurns : ℤ
  stepsPerTurn : ℤ
  running : Bool
  paused : Bool
  verboseMode : Bool
  stepperForward : Bool
  servoMinAngle : ℚ
  servoMaxAngle : ℚ
  servoPos : ℚ
  bobbinHeight : ℚ
  wireDiameter : ℚ
  turnsPerLayer : ℤ
  bobbinLength : ℚ
  bobbinWidth : ℚ
  avgTurnLength : ℚ
  lastCalcRequestedResistance : ℚ
  lastCommandTime : ℕ
  timeoutLimit : ℕ
  outputsEnabled : Bool
  stepCount : ℤ
  totalSteps : ℤ
  initialStepDelay : ℤ
  minStepDelay : ℤ
  accelSteps : ℤ
  sweepControlMode : SweepControlMode
  patternMinAngle : ℚ
  patternMaxAngle : ℚ
  patternScatter : ℚ
  patternTurnsPerLayer : ℤ
  servoAttached : Bool
  enPinEnabled : Bool
  dirPinHigh : Bool
deriving DecidableEq

/-- The global initializers of the firmware's variables (source lines 55-105),
    the state of the process before `setup()` runs. -/
def initState : WinderState where
  targetTurns := 0
  stepsPerTurn := 3200
  running := false
  paused := false
  verboseMode := false
  stepperForward := true
  servoMinAngle := 70
  servoMaxAngle := 100
  servoPos := 70
  bobbinHeight := 9
  wireDiameter := 0.2
  turnsPerLayer := 45
  bobbinLength := 60
  bobbinWidth := 4
  avgTurnLength := 140
  lastCalcRequestedResistance := 0
  lastCommandTime := 0
  timeoutLimit := 10000
  outputsEnabled := true
  stepCount := 0
  totalSteps := 0
  initialStepDelay := 1000
  minStepDelay := 300
  accelSteps := 400
  sweepControlMode := .firmware
  patternMinAngle := 0
  patternMaxAngle := 0
  patternScatter := 0
  patternTurnsPerLayer := 0
  servoAttached := false
  enPinEnabled := false
  dirPinHigh := false

/-- `enableOutputs()`: EN pin low (enabled), servo attached, flag set. -/
def enableOutputs (s : WinderState) : WinderState × List Msg :=
  ({ s with enPinEnabled := true, servoAttached := true, outputsEnabled := true },
   [Msg.status "Outputs ENABLED"])

/-- `disableOutputs()`: EN pin high (disabled), servo detached, flag cleared. -/
def disableOutputs (s : WinderState) : WinderState × List Msg :=
  ({ s with enPinEnabled := false, servoAttached := false, outputsEnabled := false },
   [Msg.status "Outputs DISABLED"])

/-- `enableServo()` / `disableServo()` attach or detach only the servo. -/
def enableServo (s : WinderState) : WinderState := { s with servoAttached := true }

def disableServo (s : WinderState) : WinderState := { s with servoAttached := false }

/-- `computeWindingParameters()`: `turnsPerLayer = (long)(bobbinHeight /
    wireDiameter)` guarded by `wireDiameter > 0`, then `servoPos =
    servoMinAngle`.  Note there is no minimum-1 clamp here. -/
def computeWindingParameters (s : WinderState) : WinderState :=
  let s1 := if 0 < s.wireDiameter then
      { s with turnsPerLayer := ratTrunc (s.bobbinHeight / s.wireDiameter) }
    else s
  { s1 with servoPos := s1.servoMinAngle }

/-- `updateAndValidate()` (source lines 185-205).  The values reaching this
    routine were produced by `atof` or already validated on load, so the
    `isnan` disjuncts can never fire and plain `ℚ` comparisons model the
    checks.  The second angle check reads the possibly already-reset
    `servoMinAngle`, exactly as the C globals do. -/
def updateAndValidate (s : WinderState) : WinderState × List Msg :=
  let p1 := if s.servoMinAngle < 0 ∨ 180 < s.servoMinAngle ∨ s.servoMaxAngle ≤ s.servoMinAngle
    then ((77 : ℚ), true) else (s.servoMinAngle, false)
  let p2 := if s.servoMaxAngle < 0 ∨ 180 < s.servoMaxAngle ∨ s.servoMaxAngle ≤ p1.1
    then ((103 : ℚ), true) else (s.servoMaxAngle, false)
  let angleWarn := if p1.2 ∨ p2.2
    then [Msg.warn "Invalid servo angles detected, resetting to defaults."] else []
  let p3 := if s.wireDiameter ≤ 0
    then (((0.2 : ℚ)), [Msg.warn "Invalid wire diameter detected, resetting to default."])
    else (s.wireDiameter, [])
  let s1 := { s with servoMinAngle := p1.1, servoMaxAngle := p2.1, wireDiameter := p3.1 }
  (computeWindingParameters s1, angleWarn ++ p3.2)

/-- `calculateAvgTurnLength()` (source lines 426-444). -/
def calculateAvgTurnLength (s : WinderState) : WinderState :=
  if s.bobbinLength ≤ 0 ∨ s.bobbinWidth ≤ 0 ∨ s.wireDiameter ≤ 0 ∨ s.targetTurns ≤ 0 then
    { s with avgTurnLength := 0 }
  else
    let corePerimeter := 2 * s.bobbinLength + piFloat * s.bobbinWidth
    let tplNow0 := ratTrunc (s.bobbinHeight / s.wireDiameter)
    let tplNow := if tplNow0 ≤ 0 then 1 else tplNow0
    let totalLayers := (s.targetTurns : ℚ) / (tplNow : ℚ)
    let windingThickness := totalLayers * s.wireDiameter
    let finalPerimeter := 2 * s.bobbinLength + piFloat * (s.bobbinWidth + 2 * windingThickness)
    { s with avgTurnLength := (corePerimeter + finalPerimeter) / 2 }

/-- The scatter inset of `updateServoPosition`:
    `effectiveMin = minAngle + (angleRange * scatterPercent/100) / 2`. -/
def effectiveMinAngle (minAngle maxAngle scatterPercent : ℚ) : ℚ :=
  minAngle + ((maxAngle - minAngle) * (scatterPercent / 100)) / 2

def effectiveMaxAngle (minAngle maxAngle scatterPercent : ℚ) : ℚ :=
  maxAngle - ((maxAngle - minAngle) * (scatterPercent / 100)) / 2

/-- `updateServoPosition(currentStepCount, totalTurnsInLayer, minAngle,
    maxAngle, scatterPercent)` (source lines 215-247), returning the new
    `servoPos`.  The two integer divisions by `totalTurnsInLayer` are
    executed before the `totalTurnsInLayer <= 1` guard is reached, so a zero
    `totalTurnsInLayer` (or zero `stepsPerTurn`) is a division by zero -
    C undefined behaviour, modelled as `none`.  `long` division and modulus
    truncate toward zero, hence `Int.tdiv` / `Int.tmod`. -/
def updateServoPosition (stepsPerTurn currentStepCount totalTurnsInLayer : ℤ)
    (minAngle maxAngle scatterPercent : ℚ) : Option ℚ :=
  if stepsPerTurn = 0 ∨ totalTurnsInLayer = 0 then none
  else
    let currentTurn := currentStepCount.tdiv stepsPerTurn
    let layer := currentTurn.tdiv totalTurnsInLayer
    let turnInLayer := currentTurn.tmod totalTurnsInLayer
    let effectiveMin := effectiveMinAngle minAngle maxAngle scatterPercent
    let effectiveMax := effectiveMaxAngle minAngle maxAngle scatterPercent
    if totalTurnsInLayer ≤ 1 then
      some (if layer.tmod 2 = 0 then effectiveMin else effectiveMax)
    else
      let sweepRange := effectiveMax - effectiveMin
      let pitchAngle := sweepRange / ((totalTurnsInLayer - 1 : ℤ) : ℚ)
      some (if layer.tmod 2 = 0 then effectiveMin + (turnInLayer : ℚ) * pitchAngle
            else effectiveMax - (turnInLayer : ℚ) * pitchAngle)

/-- `checkTimeout()` (source lines 252-260).  `millis()` is modelled as a
    `ℕ` clock; the `millis() - lastCommandTime` unsigned subtraction agrees
    with `ℕ` subtraction while the clock has not wrapped and commands are
    not received from the future, the regime every claim quantifies over. -/
def checkTimeout (now : ℕ) (s : WinderState) : WinderState × List Msg :=
  if s.timeoutLimit < now - s.lastCommandTime then
    if s.outputsEnabled then
      let p := disableOutputs s
      ({ p.1 with running := false }, p.2 ++ [Msg.status "AUTO-TIMEOUT - Outputs disabled"])
    else (s, [])
  else (s, [])

/-! EEPROM address arithmetic.  The address "constants" are macros over a
    mutable global `int addr = 0`:
      `#define ADDR_SERVO_MIN (addr)`
      `#define ADDR_SERVO_MAX (addr += sizeof(float))`  ... etc,
    so every textual use of a macro increments `addr` at run time.
    `saveSettings()` and `loadSettings()` each evaluate the eleven macros
    once, in declaration order; the increments (AVR sizes: float 4, int 2,
    long 4, unsigned long 4) are listed below in that order. -/

def addrMacroIncrements : List ℕ := [0, 4, 4, 4, 2, 4, 4, 4, 4, 4, 4]

/-- Evaluate a list of `addr += inc` macro uses starting from `addr = a`:
    the addresses used, and the final value of `addr`. -/
def addrMacroEval : List ℕ → ℕ → List ℕ × ℕ
  | [], a => ([], a)
  | inc :: rest, a =>
    let used := a + inc
    let p := addrMacroEval rest used
    (used :: p.1, p.2)

/-- The eleven EEPROM offsets one `saveSettings()` or `loadSettings()` call
    uses when it is entered with `addr = a`, for the fields servoMinAngle,
    servoMaxAngle, wireDiameter, initialStepDelay, timeoutLimit, accelSteps,
    bobbinLength, bobbinWidth, bobbinHeight, lastCalcRequestedResistance,
    sweepControlMode in that order. -/
def settingsOffsets (a : ℕ) : List ℕ := (addrMacroEval addrMacroIncrements a).1

/-- The value of the global `addr` after one `saveSettings()` or
    `loadSettings()` call entered with `addr = a`. -/
def addrAfterSettingsCall (a : ℕ) : ℕ := (addrMacroEval addrMacroIncrements a).2

/-- `EEPROM_SIZE`, evaluated at current `addr = a` (no increment). -/
def eepromSize (a : ℕ) : ℕ := a + 2

/-- The raw values `loadSettings()` obtains from its eleven `EEPROM.get`
    calls, before any sanity check.  Float fields are `Option ℚ` with `none`
    for an IEEE NaN bit pattern. -/
structure RawLoaded where
  servoMinAngle : Option ℚ
  servoMaxAngle : Option ℚ
  wireDiameter : Option ℚ
  initialStepDelay : ℤ
  timeoutLimit : ℕ
  accelSteps : ℤ
  bobbinLength : Option ℚ
  bobbinWidth : Option ℚ
  bobbinHeight : Option ℚ
  lastCalcRequestedResistance : Option ℚ
  sweepMode : ℤ
deriving DecidableEq

/-- The raw record read from a store whose every byte is `0xFF`
    (what `clearEEPROM()` writes): a 4-byte `0xFFFFFFFF` bit pattern is an
    IEEE-754 NaN for the `float` fields; the 2-byte `int` `0xFFFF` is `-1`
    in two's complement; the 4-byte `long` `0xFFFFFFFF` is `-1`; the 4-byte
    `unsigned long` `0xFFFFFFFF` is `4294967295`; the sweep mode is read
    through an `int` reference, hence `-1`. -/
def rawAllFF : RawLoaded where
  servoMinAngle := none
  servoMaxAngle := none
  wireDiameter := none
  initialStepDelay := -1
  timeoutLimit := 4294967295
  accelSteps := -1
  bobbinLength := none
  bobbinWidth := none
  bobbinHeight := none
  lastCalcRequestedResistance := none
  sweepMode := -1

/-- `loadSettings()` (source lines 288-375): overwrite the eleven fields
    with the raw EEPROM values, then run the per-field sanity checks in
    source order (every float check tests `isnan` first, modelled by the
    `Option` match), then `calculateAvgTurnLength()`. -/
def loadSettings (r : RawLoaded) (s : WinderState) : WinderState × List Msg :=
  let pMin := match r.servoMinAngle with
    | none => ((77 : ℚ), true)
    | some q => if q < 0 ∨ 180 < q then ((77 : ℚ), true) else (q, false)
  let pMax := match r.servoMaxAngle with
    | none => ((103 : ℚ), true)
    | some q => if q < 0 ∨ 180 < q then ((103 : ℚ), true) else (q, false)
  let pBoth := if pMax.1 ≤ pMin.1 then ((77 : ℚ), (103 : ℚ), true) else (pMin.1, pMax.1, false)
  let angleWarn := if pMin.2 ∨ pMax.2 ∨ pBoth.2.2
    then [Msg.warn "Invalid servo angles in EEPROM, reset to defaults."] else []
  let pWire := match r.wireDiameter with
    | none => ((0.2 : ℚ), [Msg.warn "Invalid wire diameter in EEPROM, reset to default."])
    | some q => if q ≤ 0
      then ((0.2 : ℚ), [Msg.warn "Invalid wire diameter in EEPROM, reset to default."])
      else (q, [])
  let pDelay := if r.initialStepDelay ≤ s.minStepDelay ∨ 20000 < r.initialStepDelay
    then ((1000 : ℤ), [Msg.warn "Invalid step delay in EEPROM, reset to default."])
    else (r.initialStepDelay, [])
  let pTimeout := if r.timeoutLimit < 1000
    then ((10000 : ℕ), [Msg.warn "Invalid timeout in EEPROM, reset to default."])
    else (r.timeoutLimit, [])
  let pAccel := if r.accelSteps ≤ 0 ∨ 10000 < r.accelSteps
    then ((400 : ℤ), [Msg.warn "Invalid accel steps in EEPROM, reset to default."])
    else (r.accelSteps, [])
  let pLen := match r.bobbinLength with
    | none => ((60 : ℚ), [Msg.warn "Invalid bobbin length in EEPROM, reset to default."])
    | some q => if q ≤ 0 ∨ 1000 < q
      then ((60 : ℚ), [Msg.warn "Invalid bobbin length in EEPROM, reset to default."])
      else (q, [])
  let pWid := match r.bobbinWidth with
    | none => ((4 : ℚ), [Msg.warn "Invalid bobbin width in EEPROM, reset to default."])
    | some q => if q ≤ 0 ∨ 1000 < q
      then ((4 : ℚ), [Msg.warn "Invalid bobbin width in EEPROM, reset to default."])
      else (q, [])
  let pHgt := match r.bobbinHeight with
    | none => ((9 : ℚ), [Msg.warn "Invalid bobbin height in EEPROM, reset to default."])
    | some q => if q ≤ 0 ∨ 100 < q
      then ((9 : ℚ), [Msg.warn "Invalid bobbin height in EEPROM, reset to default."])
      else (q, [])
  let pCalcR := match r.lastCalcRequestedResistance with
    | none => ((0 : ℚ),
        [Msg.warn "Invalid last calculated resistance in EEPROM, reset to default."])
    | some q => if q < 0
      then ((0 : ℚ),
        [Msg.warn "Invalid last calculated resistance in EEPROM, reset to default."])
      else (q, [])
  let pSweep := if r.sweepMode ≠ 0 ∧ r.sweepMode ≠ 1
    then (SweepControlMode.firmware,
        [Msg.warn "Invalid sweep control mode in EEPROM, reset to default."])
    else ((if r.sweepMode = 0 then SweepControlMode.firmware else SweepControlMode.gui), [])
  let s1 := { s with
    servoMinAngle := pBoth.1
    servoMaxAngle := pBoth.2.1
    wireDiameter := pWire.1
    initialStepDelay := pDelay.1
    timeoutLimit := pTimeout.1
    accelSteps := pAccel.1
    bobbinLength := pLen.1
    bobbinWidth := pWid.1
    bobbinHeight := pHgt.1
    lastCalcRequestedResistance := pCalcR.1
    sweepControlMode := pSweep.1 }
  (calculateAvgTurnLength s1,
   angleWarn ++ pWire.2 ++ pDelay.2 ++ pTimeout.2 ++ pAccel.2 ++ pLen.2 ++ pWid.2 ++
     pHgt.2 ++ pCalcR.2 ++ pSweep.2 ++ [Msg.status "Settings loaded from EEPROM"])

/-- `calculateSCurveDelay(currentStepInRamp, totalRampSteps)`
    (source lines 380-388), with the configured initial and minimum step
    delays passed explicitly. -/
noncomputable def calculateSCurveDelay
    (initialStepDelay minStepDelay currentStepInRamp totalRampSteps : ℤ) : ℤ :=
  let cosInput : ℝ := (currentStepInRamp : ℝ) / (totalRampSteps : ℝ)
  let cosOutput : ℝ := Real.cos (cosInput * Real.pi)
  let multiplier : ℝ := (1 - cosOutput) / 2
  let delayRange : ℤ := initialStepDelay - minStepDelay
  initialStepDelay - truncR ((delayRange : ℝ) * multiplier)

/-- The pulse delay `stepWithAcceleration()` emits at the current
    `stepCount` (source lines 393-424): S-curve ramp on the first part of
    the first rotation and the last part of the last rotation, constant
    `minStepDelay` otherwise, clamped from below by `minStepDelay`.
    The `stepCount++` side effect is modelled in `loopTick`; the returned
    delay only paces the pulse in real time. -/
noncomputable def stepWithAcceleration (s : WinderState) : ℤ :=
  let currentTurn := s.stepCount.tdiv s.stepsPerTurn
  let stepsIntoTurn := s.stepCount.tmod s.stepsPerTurn
  let delayNow :=
    if currentTurn = 0 ∧ stepsIntoTurn < s.accelSteps then
      calculateSCurveDelay s.initialStepDelay s.minStepDelay stepsIntoTurn s.accelSteps
    else if currentTurn = s.targetTurns - 1 ∧ s.stepsPerTurn - s.accelSteps ≤ stepsIntoTurn then
      let decelStepCount := stepsIntoTurn - (s.stepsPerTurn - s.accelSteps)
      calculateSCurveDelay s.initialStepDelay s.minStepDelay
        (s.accelSteps - decelStepCount) s.accelSteps
    else s.minStepDelay
  if delayNow < s.minStepDelay then s.minStepDelay else delayNow

/-- Result of processing one command line: a new state with its serial
    output, or C undefined behaviour (`undef`), or entry into one of the
    blocking diagnostic routines whose inner pulse/serial loops are outside
    this embedding (`diagnostic`). -/
inductive CmdResult
  | ok (s : WinderState) (out : List Msg)
  | undef
  | diagnostic (name : String)
deriving DecidableEq

/-! The WIND / SERVO / STEPPER action handlers, one definition per action
    branch of `processCommand` (the C function is one large if/else chain;
    it is split here purely so each branch term stays small). -/

/-- `WIND START [-V]` (source lines 763-783). -/
def windStart (argv : List String) (s : WinderState) : CmdResult :=
  let verbose := argv.get? 0 = some "-V"
  let m0 := if verbose then [Msg.info "Verbose mode enabled."] else []
  let p := enableOutputs { s with verboseMode := verbose, dirPinHigh := s.stepperForward }
  let startPos := if p.1.sweepControlMode = SweepControlMode.pattern then p.1.patternMinAngle
    else p.1.servoMinAngle
  .ok { p.1 with servoPos := startPos, totalSteps := p.1.targetTurns * p.1.stepsPerTurn,
                 stepCount := 0, running := true, paused := false }
     (m0 ++ [Msg.report] ++ p.2 ++ [Msg.status "Winding STARTED"])

/-- `WIND STOP` (source lines 784-787). -/
def windStop (s : WinderState) : CmdResult :=
  .ok { s with running := false, verboseMode := false } [Msg.status "Winding STOPPED"]

/-- `WIND PAUSE` (source lines 788-789). -/
def windPause (s : WinderState) : CmdResult :=
  if s.running then
    .ok { s with running := false, paused := true } [Msg.status "Winding PAUSED"]
  else .ok s []

/-- `WIND RESUME` (source lines 790-791). -/
def windResume (s : WinderState) : CmdResult :=
  if s.paused then
    let p := enableOutputs s
    .ok { p.1 with running := true, paused := false } (p.2 ++ [Msg.status "Winding RESUMED"])
  else .ok s []

/-- `WIND COUNT <n>` (source lines 792-800). -/
def windCount (argv : List String) (s : WinderState) : CmdResult :=
  match argv.get? 0 with
  | some val =>
    let s1 := calculateAvgTurnLength { s with targetTurns := atolZ val, stepCount := 0 }
    .ok { s1 with lastCalcRequestedResistance := 0 } [Msg.param "Target turns"]
  | none => .ok s []

/-- `WIND SPEED <stepsPerSec>` (source lines 801-809). -/
def windSpeed (argv : List String) (s : WinderState) : CmdResult :=
  match argv.get? 0 with
  | some val =>
    if 0 < atolZ val then
      .ok { s with minStepDelay := ((1000000 : ℤ).tdiv (atolZ val)).tdiv 2 }
         [Msg.param "Speed set"]
    else .ok s []
  | none => .ok s []

/-- `WIND DIR FWD|REV` (source lines 810-815). -/
def windDir (argv : List String) (s : WinderState) : CmdResult :=
  match argv.get? 0 with
  | some val => .ok { s with stepperForward := val = "FWD" } [Msg.param "Stepper direction"]
  | none => .ok s []

/-- `WIND SWEEP FIRMWARE|GUI|PATTERN` (source lines 816-828): the mode
    token is not null-checked before `strcmp`. -/
def windSweep (argv : List String) (s : WinderState) : CmdResult :=
  match argv.get? 0 with
  | none => .undef
  | some mode =>
    if mode = "FIRMWARE" then
      .ok { s with sweepControlMode := .firmware } [Msg.param "Sweep control set to FIRMWARE."]
    else if mode = "GUI" then
      .ok { s with sweepControlMode := .gui } [Msg.param "Sweep control set to GUI."]
    else if mode = "PATTERN" then
      .ok { s with sweepControlMode := .pattern } [Msg.param "Sweep control set to PATTERN."]
    else .ok s []

/-- `WIND PATTERN <min> <max> <tpl> <scatter>` (source lines 829-837). -/
def windPattern (argv : List String) (s : WinderState) : CmdResult :=
  match argv.get? 0, argv.get? 1, argv.get? 2, argv.get? 3 with
  | some mn, some mx, some tpl, some sc =>
    .ok { s with patternMinAngle := atofQ mn, patternMaxAngle := atofQ mx,
                 patternTurnsPerLayer := atolZ tpl, patternScatter := atofQ sc }
       [Msg.param "Sweep pattern received."]
  | _, _, _, _ => .ok s []

/-- `WIND SCATTER <pct>` (source lines 838-845). -/
def windScatter (argv : List String) (s : WinderState) : CmdResult :=
  match argv.get? 0 with
  | some val => .ok { s with patternScatter := atofQ val } [Msg.param "Live scatter updated"]
  | none => .ok s []

/-- `WIND <action> [args]` (source lines 762-847). -/
def windCmd (action : String) (argv : List String) (s : WinderState) : CmdResult :=
  if action = "START" then windStart argv s
  else if action = "STOP" then windStop s
  else if action = "PAUSE" then windPause s
  else if action = "RESUME" then windResume s
  else if action = "COUNT" then windCount argv s
  else if action = "SPEED" then windSpeed argv s
  else if action = "DIR" then windDir argv s
  else if action = "SWEEP" then windSweep argv s
  else if action = "PATTERN" then windPattern argv s
  else if action = "SCATTER" then windScatter argv s
  else .ok s []

/-- `SERVO POS <angle>` (source lines 861-868). -/
def servoPosCmd (argv : List String) (s : WinderState) : CmdResult :=
  match argv.get? 0 with
  | some val =>
    .ok { s with servoPos := atofQ val, servoAttached := true } [Msg.status "Servo moved"]
  | none => .ok s []

/-- `SERVO CALIBRATE <min> <max>` (source lines 869-884). -/
def servoCalibrate (argv : List String) (s : WinderState) : CmdResult :=
  match argv.get? 0, argv.get? 1 with
  | some minStr, some maxStr =>
    let p := enableOutputs s
    let q := updateAndValidate
      { p.1 with servoMinAngle := atofQ minStr, servoMaxAngle := atofQ maxStr }
    let r := disableOutputs q.1
    .ok r.1 (p.2 ++ q.2 ++ [Msg.param "Servo Min/Max Angle"] ++ r.2)
  | _, _ => .ok s [Msg.error "Invalid format. Use: SERVO CALIBRATE <min> <max>"]

/-- `SERVO <action> [args]` (source lines 850-887). -/
def servoCmd (action : String) (argv : List String) (s : WinderState) : CmdResult :=
  if action = "STATUS" then .ok s [Msg.status "SERVO_STATUS"]
  else if action = "ENABLE" then .ok (enableServo s) [Msg.status "Servo ENABLED"]
  else if action = "DISABLE" then .ok (disableServo s) [Msg.status "Servo DISABLED"]
  else if action = "POS" then servoPosCmd argv s
  else if action = "CALIBRATE" then servoCalibrate argv s
  else .ok s []

/-- `STEPPER MOVE <steps>` (source lines 901-917); the pulse loop is
    bounded and only pulses the step pin, its timing is not modelled. -/
def stepperMove (argv : List String) (s : WinderState) : CmdResult :=
  match argv.get? 0 with
  | some _ =>
    let p := enableOutputs s
    let q := disableOutputs { p.1 with dirPinHigh := p.1.stepperForward }
    .ok q.1 ([Msg.info "Stepper moving steps..."] ++ p.2 ++
             [Msg.status "Stepper move completed."] ++ q.2)
  | none => .ok s []

/-- `STEPPER <action> [args]` (source lines 890-920). -/
def stepperCmd (action : String) (argv : List String) (s : WinderState) : CmdResult :=
  if action = "STATUS" then .ok s [Msg.status "STEPPER_STATUS"]
  else if action = "ENABLE" then .ok { s with enPinEnabled := true } [Msg.status "Stepper ENABLED"]
  else if action = "DISABLE" then
    .ok { s with enPinEnabled := false } [Msg.status "Stepper DISABLED"]
  else if action = "MOVE" then stepperMove argv s
  else .ok s []

/-- `SYS <action>` (source lines 923-954).  `raw` is the record the next
    `loadSettings()` would read from EEPROM; the RESET branch reuses it for
    the reload after `clearEEPROM()` (because of the address-counter defect
    the post-clear read is not guaranteed to see `0xFF` bytes, so it stays
    abstract here). -/
def sysCmd (raw : RawLoaded) (action : String) (s : WinderState) : CmdResult :=
  if action = "STATUS" then .ok s [Msg.report]
  else if action = "SAVE" then .ok s [Msg.status "Settings saved to EEPROM"]
  else if action = "LOAD" then
    let p := loadSettings raw s
    let q := updateAndValidate p.1
    .ok q.1 (p.2 ++ q.2)
  else if action = "RESET" then
    let m0 := [Msg.info "Restoring all settings to factory defaults.",
               Msg.info "Clearing EEPROM...", Msg.status "EEPROM cleared."]
    let p := loadSettings raw s
    let s1 := { p.1 with lastCalcRequestedResistance := 0 }
    let q := updateAndValidate s1
    .ok q.1 (m0 ++ p.2 ++ q.2 ++ [Msg.status "Settings saved to EEPROM"])
  else if action = "VERSION" then .ok s [Msg.info "FIRMWARE_VERSION: 1.2.0"]
  else if action = "HELP" then .ok s [Msg.info "Commands:"]
  else .ok s []

/-- `BOBBIN <len> <wid> <hgt>` (source lines 957-987); the first value is
    the token already parsed as the action, which is never null (it defaults
    to "STATUS" when absent, so a bare `BOBBIN` fails the null check on the
    second token). -/
def bobbinCmd (action : String) (argv : List String) (s : WinderState) : CmdResult :=
  match argv.get? 0, argv.get? 1 with
  | some wStr, some hStr =>
    if atofQ action ≤ 0 ∨ atofQ wStr ≤ 0 ∨ atofQ hStr ≤ 0 then
      .ok s [Msg.error "Bobbin dimensions must be positive numbers."]
    else
      let p := updateAndValidate { s with bobbinLength := atofQ action,
                                          bobbinWidth := atofQ wStr,
                                          bobbinHeight := atofQ hStr }
      .ok (calculateAvgTurnLength p.1) (p.2 ++ [Msg.param "Bobbin dimensions updated:"])
  | _, _ => .ok s [Msg.error "Invalid BOBBIN format. Use: BOBBIN <len> <wid> <hgt>"]

/-- `WIRE_DIA <mm>` (source lines 990-998); the value token is the action,
    which is never null, so a bare `WIRE_DIA` parses "STATUS" as 0.0 and the
    validation resets the diameter to the default. -/
def wireDiaCmd (action : String) (s : WinderState) : CmdResult :=
  let p := updateAndValidate { s with wireDiameter := atofQ action }
  .ok (calculateAvgTurnLength p.1) (p.2 ++ [Msg.param "Wire diameter"])

/-- The 10-iteration fixed-point loop of the CALC command (source lines
    1037-1050): `Except.error` is the `avgTurnLength <= 0` early return
    (with `targetTurns` zeroed by the handler). -/
def calcLoop : ℕ → ℤ → ℚ → ℚ → WinderState → Except WinderState (WinderState × ℤ)
  | 0, calculatedTurns, _, _, s => .ok (s, calculatedTurns)
  | n + 1, calculatedTurns, targetResistance, area, s =>
    let s1 := calculateAvgTurnLength { s with targetTurns := calculatedTurns }
    if s1.avgTurnLength ≤ 0 then .error { s1 with targetTurns := 0 }
    else
      let totalLength := (targetResistance * area) / copperResistivity
      calcLoop n (ratTrunc ((totalLength * 1000) / s1.avgTurnLength)) targetResistance area s1

/-- The body of CALC after the unit suffix has been resolved. -/
def calcRun (targetResistance : ℚ) (s : WinderState) : CmdResult :=
  if targetResistance ≤ 0 then .ok s [Msg.error "Target resistance must be positive."]
  else
    let s0 := { s with lastCalcRequestedResistance := targetResistance }
    let radius := (s0.wireDiameter / 2) / 1000
    let area := piFloat * radius * radius
    match calcLoop 10 1000 targetResistance area s0 with
    | .error sErr =>
      .ok sErr [Msg.info "Calculating turns...",
                Msg.error "Could not calculate average turn length."]
    | .ok (s1, calculated) =>
      let s2 := calculateAvgTurnLength { s1 with targetTurns := calculated }
      .ok s2 [Msg.info "Calculating turns...", Msg.status "Target turns updated."]

/-- `CALC <value>R|<value>K` (source lines 1001-1070). -/
def calcCmd (action : String) (s : WinderState) : CmdResult :=
  if s.bobbinLength ≤ 0 ∨ s.bobbinWidth ≤ 0 ∨ s.bobbinHeight ≤ 0 ∨ s.wireDiameter ≤ 0 then
    .ok s
      ((if s.bobbinLength ≤ 0 ∨ s.bobbinWidth ≤ 0 ∨ s.bobbinHeight ≤ 0
        then [Msg.error "Bobbin dimensions not set. Use: BOBBIN <L> <W> <H>"] else []) ++
       (if s.wireDiameter ≤ 0
        then [Msg.error "Wire diameter not set. Use: WIRE_DIA <mm>"] else []))
  else
    match action.toList.getLast? with
    | none => .ok s [Msg.error "Invalid CALC format. Use: CALC <value>R or CALC <value>K"]
    | some unit =>
      if unit = 'K' then calcRun (atofQ action * 1000) s
      else if unit = 'R' then calcRun (atofQ action) s
      else .ok s [Msg.error "Invalid CALC format. Use: CALC <value>R or CALC <value>K"]

/-- The dispatch body of `processCommand` after `lastCommandTime` has been
    stamped (source lines 534-1073): the whole-line legacy forms checked
    first (`TEST_LAYER` by a 10-character prefix test), then the
    component/action grammar, with the action defaulting to "STATUS".
    The input is the tokenized command line (`strtok_r` on blanks).
    `TEST_LAYER` and `TEST_STEPPER_MOVE` enter blocking diagnostic loops
    (the former recursively processes serial input) and are left abstract. -/
def dispatchCommand (raw : RawLoaded) (tokens : List String) (s : WinderState) : CmdResult :=
  if strPre "TEST_LAYER" ((tokens.get? 0).getD "") then .diagnostic "TEST_LAYER"
  else if tokens = ["TEST_STEPPER"] then
    let p := enableOutputs s
    let q := disableOutputs { p.1 with dirPinHigh := true }
    .ok q.1 (p.2 ++ [Msg.info "Stepper buzz test (50 steps)...",
                     Msg.status "Stepper buzz test done."] ++ q.2)
  else if (tokens.get? 0).getD "" = "TEST_STEPPER_MOVE" ∧ 2 ≤ tokens.length then
    .diagnostic "TEST_STEPPER_MOVE"
  else if tokens = ["RESTORE_DEFAULTS"] then
    let m0 := [Msg.info "Restoring all settings to factory defaults.",
               Msg.info "Clearing EEPROM...", Msg.status "EEPROM cleared."]
    let p := loadSettings raw s
    let s1 := { p.1 with lastCalcRequestedResistance := 0 }
    let q := updateAndValidate s1
    .ok q.1 (m0 ++ p.2 ++ q.2 ++ [Msg.status "Settings saved to EEPROM"])
  else if tokens = ["STATUS"] then .ok s [Msg.report]
  else
    match tokens with
    | [] => .ok s []
    | component :: rest =>
      let action := (rest.get? 0).getD "STATUS"
      let argv := rest.drop 1
      if component = "WIND" then windCmd action argv s
      else if component = "SERVO" then servoCmd action argv s
      else if component = "STEPPER" then stepperCmd action argv s
      else if component = "SYS" then sysCmd raw action s
      else if component = "BOBBIN" then bobbinCmd action argv s
      else if component = "WIRE_DIA" then wireDiaCmd action s
      else if component = "CALC" then calcCmd action s
      else .ok s [Msg.error "Unknown command."]

/-- `processCommand(cmd)` stamps `lastCommandTime = millis()` first
    (source line 535), before any parsing, then dispatches. -/
def processCommand (now : ℕ) (raw : RawLoaded) (tokens : List String)
    (s : WinderState) : CmdResult :=
  dispatchCommand raw tokens { s with lastCommandTime := now }

/-- Run a sequence of command lines, threading the state and concatenating
    the output; stops at undefined behaviour or a diagnostic entry. -/
def cmdSeq (now : ℕ) (raw : RawLoaded) : List (List String) → WinderState → CmdResult
  | [], s => .ok s []
  | c :: cs, s =>
    match processCommand now raw c s with
    | .ok s1 out1 =>
      match cmdSeq now raw cs s1 with
      | .ok s2 out2 => .ok s2 (out1 ++ out2)
      | r => r
    | r => r

/-- One `loop()` iteration with no pending serial input (source lines
    1078-1116): check the safety timeout, then, while RUNNING with outputs
    enabled and steps remaining, emit one pulse (`stepCount++`; the emitted
    delay, `stepWithAcceleration`, only paces real time), run the sweep
    update on a rotation boundary, and handle completion.  `none` models the
    division by zero inside `updateServoPosition`. -/
def loopTick (now : ℕ) (s : WinderState) : Option (WinderState × List Msg) :=
  let p := checkTimeout now s
  let s1 := p.1
  if s1.running = true ∧ s1.outputsEnabled = true ∧ s1.stepCount < s1.totalSteps then
    let s2 := { s1 with stepCount := s1.stepCount + 1 }
    let m2 := if s2.verboseMode = true ∧ (0 : ℤ) < s2.stepCount ∧
        s2.stepCount.tmod s2.stepsPerTurn = (0 : ℤ)
      then [Msg.info "turn report"] else []
    let afterSweep : Option WinderState :=
      if (0 : ℤ) < s2.stepCount ∧ s2.stepCount.tmod s2.stepsPerTurn = (0 : ℤ) then
        if s2.sweepControlMode = .firmware then
          match updateServoPosition s2.stepsPerTurn s2.stepCount s2.turnsPerLayer
              s2.servoMinAngle s2.servoMaxAngle 0 with
          | none => none
          | some pos => some { s2 with servoPos := pos }
        else if s2.sweepControlMode = .pattern then
          match updateServoPosition s2.stepsPerTurn s2.stepCount s2.patternTurnsPerLayer
              s2.patternMinAngle s2.patternMaxAngle s2.patternScatter with
          | none => none
          | some pos => some { s2 with servoPos := pos }
        else some s2
      else some s2
    match afterSweep with
    | none => none
    | some s3 =>
      if s3.totalSteps ≤ s3.stepCount then
        let q := disableOutputs { s3 with running := false, verboseMode := false }
        some (q.1, p.2 ++ m2 ++ [Msg.status "Winding completed."] ++ q.2)
      else some (s3, p.2 ++ m2)
  else some (s1, p.2)

/-- The state part of one `loop()` iteration. -/
def loopTickState (now : ℕ) (s : WinderState) : Option WinderState :=
  Option.map Prod.fst (loopTick now s)

/-- Iterate `loop()` with no serial input `n` times. -/
def iterTicks (now : ℕ) : ℕ → WinderState → Option WinderState
  | 0, s => some s
  | n + 1, s =>
    match loopTickState now s with
    | none => none
    | some s1 => iterTicks now n s1

/-- The state reached by a command sequence, when it completes normally. -/
def okState : CmdResult → Option WinderState
  | .ok s _ => some s
  | _ => none

/-- The serial output of a command, when it completes normally. -/
def okOut : CmdResult → Option (List Msg)
  | .ok _ out => some out
  | _ => none

/-- The state after `WIND START` is processed at time 0 from `initState`
    (FIRMWARE sweep mode, targetTurns 0). -/
def runningAfterStart : WinderState :=
  { initState with dirPinHigh := true, enPinEnabled := true, servoAttached := true,
                   running := true }

/-- The state after `WIND START` then `WIND PAUSE` at time 0 from
    `initState`. -/
def pausedAfterStart : WinderState :=
  { runningAfterStart with running := false, paused := true }

/-- `pausedAfterStart` after the safety timeout has fired. -/
def c6Timeout : WinderState :=
  { pausedAfterStart with enPinEnabled := false, servoAttached := false,
                          outputsEnabled := false }

/-- `c6Timeout` after `WIND RESUME` is processed at time 20001. -/
def c6Resumed : WinderState :=
  { c6Timeout with lastCommandTime := 20001, enPinEnabled := true, servoAttached := true,
                   outputsEnabled := true, running := true, paused := false }

/-- The state after `WIRE_DIA 10` is processed at time 0 from `initState`. -/
def afterWireDia10 : WinderState :=
  { initState with wireDiameter := 10, turnsPerLayer := 0, avgTurnLength := 0 }

/-- The command sequence that arms a PATTERN-mode job without ever sending
    `WIND PATTERN`. -/
def c10Cmds : List (List String) :=
  [["WIND", "COUNT", "10"], ["WIND", "SWEEP", "PATTERN"], ["WIND", "START"]]

/-- The state `c10Cmds` reaches at time 0 from `initState`: RUNNING in
    PATTERN sweep mode with `patternTurnsPerLayer` still at its initial 0. -/
def c10Base : WinderState :=
  { initState with targetTurns := 10, avgTurnLength := 120 + (182 / 45) * piFloat,
                   sweepControlMode := .pattern, dirPinHigh := true, enPinEnabled := true,
                   servoAttached := true, servoPos := 0, totalSteps := 32000, running := true }

/-- `c10Base` after `k` pulses of the run loop. -/
def c10At (k : ℕ) : WinderState := { c10Base with stepCount := (k : ℤ) }

/-! Evaluation lemmas: routing of concrete command lines through the
    dispatcher, and per-branch unfoldings of the handlers used by concrete
    traces.  Reductions are done `if`-by-`if` to keep terms small. -/

lemma dispatch_wind (raw : RawLoaded) (rest : List String) (s : WinderState) :
    dispatchCommand raw ("WIND" :: rest) s =
      windCmd ((rest.get? 0).getD "STATUS") (rest.drop 1) s := by
  unfold dispatchCommand
  rw [if_neg (by simp [strPre, charsPre]), if_neg (by simp), if_neg (by simp),
      if_neg (by simp), if_neg (by simp)]
  simp

lemma dispatch_wire_dia (raw : RawLoaded) (rest : List String) (s : WinderState) :
    dispatchCommand raw ("WIRE_DIA" :: rest) s =
      wireDiaCmd ((rest.get? 0).getD "STATUS") s := by
  unfold dispatchCommand
  rw [if_neg (by simp [strPre, charsPre]), if_neg (by simp), if_neg (by simp),
      if_neg (by simp), if_neg (by simp)]
  simp

lemma dispatch_wind1 (raw : RawLoaded) (a : String) (s : WinderState) :
    dispatchCommand raw ["WIND", a] s = windCmd a [] s := by
  rw [dispatch_wind]
  rfl

lemma dispatch_wind2 (raw : RawLoaded) (a b : String) (s : WinderState) :
    dispatchCommand raw ["WIND", a, b] s = windCmd a [b] s := by
  rw [dispatch_wind]
  rfl

lemma dispatch_wire_dia1 (raw : RawLoaded) (a : String) (s : WinderState) :
    dispatchCommand raw ["WIRE_DIA", a] s = wireDiaCmd a s := by
  rw [dispatch_wire_dia]
  rfl

lemma windCmd_start_noarg (s : WinderState) :
    windCmd "START" [] s =
      .ok { s with verboseMode := false, dirPinHigh := s.stepperForward,
                   enPinEnabled := true, servoAttached := true, outputsEnabled := true,
                   servoPos := if s.sweepControlMode = SweepControlMode.pattern then
                     s.patternMinAngle else s.servoMinAngle,
                   totalSteps := s.targetTurns * s.stepsPerTurn, stepCount := 0,
                   running := true, paused := false }
        [Msg.report, Msg.status "Outputs ENABLED", Msg.status "Winding STARTED"] := by
  unfold windCmd windStart
  rw [if_pos rfl]
  simp [enableOutputs]

lemma windCmd_pause (argv : List String) (s : WinderState) :
    windCmd "PAUSE" argv s =
      if s.running = true then
        .ok { s with running := false, paused := true } [Msg.status "Winding PAUSED"]
      else .ok s [] := by
  unfold windCmd windPause
  rw [if_neg (by decide), if_neg (by decide), if_pos rfl]

lemma windCmd_resume (argv : List String) (s : WinderState) :
    windCmd "RESUME" argv s =
      if s.paused = true then
        .ok { s with enPinEnabled := true, servoAttached := true, outputsEnabled := true,
                     running := true, paused := false }
          [Msg.status "Outputs ENABLED", Msg.status "Winding RESUMED"]
      else .ok s [] := by
  unfold windCmd windResume
  rw [if_neg (by decide), if_neg (by decide), if_neg (by decide), if_pos rfl]
  split_ifs <;> simp [enableOutputs]

lemma windCmd_sweep_noarg (s : WinderState) :
    windCmd "SWEEP" [] s = .undef := by
  unfold windCmd windSweep
  rw [if_neg (by decide), if_neg (by decide), if_neg (by decide), if_neg (by decide),
      if_neg (by decide), if_neg (by decide), if_neg (by decide), if_pos rfl]
  rfl

lemma windCmd_sweep_pattern (s : WinderState) :
    windCmd "SWEEP" ["PATTERN"] s =
      .ok { s with sweepControlMode := .pattern } [Msg.param "Sweep control set to PATTERN."] := by
  unfold windCmd windSweep
  rw [if_neg (by decide), if_neg (by decide), if_neg (by decide), if_neg (by decide),
      if_neg (by decide), if_neg (by decide), if_neg (by decide), if_pos rfl]
  simp

lemma windCmd_count (v : String) (s : WinderState) :
    windCmd "COUNT" [v] s =
      .ok { calculateAvgTurnLength { s with targetTurns := atolZ v, stepCount := 0 } with
              lastCalcRequestedResistance := 0 } [Msg.param "Target turns"] := by
  unfold windCmd windCount
  rw [if_neg (by decide), if_neg (by decide), if_neg (by decide), if_neg (by decide),
      if_pos rfl]
  rfl

/-- `calculateAvgTurnLength` only writes `avgTurnLength`. -/
lemma calculateAvgTurnLength_shape (s : WinderState) :
    ∃ q, calculateAvgTurnLength s = { s with avgTurnLength := q } := by
  unfold calculateAvgTurnLength
  split
  · exact ⟨_, rfl⟩
  · exact ⟨_, rfl⟩

lemma atofQ_ten : atofQ "10" = 10 := by decide

lemma atolZ_ten : atolZ "10" = 10 := by decide

/-- The wire diameter `updateAndValidate` leaves behind is positive. -/
lemma uv_wireDiameter_pos (s : WinderState) : 0 < (updateAndValidate s).1.wireDiameter := by
  simp only [updateAndValidate, computeWindingParameters]
  split_ifs <;> simp_all <;> linarith

/-- `updateAndValidate` never changes the bobbin height. -/
lemma uv_bobbinHeight (s : WinderState) :
    (updateAndValidate s).1.bobbinHeight = s.bobbinHeight := by
  simp only [updateAndValidate, computeWindingParameters]
  split_ifs <;> simp_all

/-- After `updateAndValidate`, `turnsPerLayer` is exactly the truncated
    quotient of the bobbin height by the validated wire diameter. -/
lemma uv_turnsPerLayer (s : WinderState) :
    (updateAndValidate s).1.turnsPerLayer =
      ratTrunc (s.bobbinHeight / (updateAndValidate s).1.wireDiameter) := by
  simp only [updateAndValidate, computeWindingParameters]
  split_ifs <;> simp_all <;> linarith

/-- The claim: saveSettings and loadSettings address every field through a
    fixed set of EEPROM offsets, making save-then-load the identity.  In
    fact the address macros increment the global `addr` at every
    evaluation: one save/load call entered at `addr = a` uses offsets
    `a .. a+38` and leaves `addr = a + 38`, so the very next call reads
    every field from a different offset than the one the previous call
    wrote it to.  After the power-on `loadSettings()` (offsets 0..38) a
    `SYS SAVE` writes at 38..76 and the following `SYS LOAD` reads at
    76..114. -/
theorem C1_eeprom_offsets_drift :
    settingsOffsets 0 = [0, 4, 8, 12, 14, 18, 22, 26, 30, 34, 38] ∧
    (∀ a : ℕ, addrAfterSettingsCall a = a + 38) ∧
    (∀ a : ℕ, List.Forall₂ (fun w r => w ≠ r)
      (settingsOffsets a) (settingsOffsets (addrAfterSettingsCall a))) := by
  refine ⟨by decide, fun a => ?_, fun a => ?_⟩
  · simp [addrAfterSettingsCall, addrMacroEval, addrMacroIncrements]
  · simp only [settingsOffsets, addrAfterSettingsCall, addrMacroEval, addrMacroIncrements]
    simp only [List.forall₂_cons, List.Forall₂.nil, and_true]
    omega

/-- What `loadSettings` computes on an all-0xFF store. -/
lemma loadSettings_allFF (s : WinderState) (h : (-1 : ℤ) ≤ s.minStepDelay) :
    (loadSettings rawAllFF s).1 =
      calculateAvgTurnLength
        { s with servoMinAngle := 77, servoMaxAngle := 103, wireDiameter := 0.2,
                 initialStepDelay := 1000, timeoutLimit := 4294967295, accelSteps := 400,
                 bobbinLength := 60, bobbinWidth := 4, bobbinHeight := 9,
                 lastCalcRequestedResistance := 0,
                 sweepControlMode := SweepControlMode.firmware } := by
  simp only [loadSettings, rawAllFF]
  rw [if_neg (by norm_num), if_pos (Or.inl h), if_neg (by norm_num),
      if_pos (Or.inl (by norm_num : (-1 : ℤ) ≤ 0)), if_pos (by decide)]

/-- Counterexample to the claim that a load after a full 0xFF clear resets
    every field to its documented default: `timeoutLimit` is read back as
    `0xFFFFFFFF = 4294967295`, which passes the only validation
    (`timeoutLimit < 1000`) and is retained, not reset to 10000. -/
theorem C2_counterexample :
    (loadSettings rawAllFF initState).1.timeoutLimit = 4294967295 ∧
    (4294967295 : ℕ) ≠ 10000 := by
  constructor
  · rw [loadSettings_allFF initState (by norm_num [initState])]
    obtain ⟨q, hq⟩ := calculateAvgTurnLength_shape
      { initState with servoMinAngle := 77, servoMaxAngle := 103, wireDiameter := 0.2,
                       initialStepDelay := 1000, timeoutLimit := 4294967295, accelSteps := 400,
                       bobbinLength := 60, bobbinWidth := 4, bobbinHeight := 9,
                       lastCalcRequestedResistance := 0,
                       sweepControlMode := SweepControlMode.firmware }
    rw [hq]
  · decide

/-- Amended claim: after `clearEEPROM()` fills the store with 0xFF bytes, a
    `loadSettings()` resets every persisted field to its documented default
    except `timeoutLimit`, which retains the in-range garbage value
    4294967295 (the only check is the lower bound `< 1000`). -/
theorem C2_amended (s : WinderState) (h : (-1 : ℤ) ≤ s.minStepDelay) :
    ((loadSettings rawAllFF s).1.servoMinAngle = 77 ∧
     (loadSettings rawAllFF s).1.servoMaxAngle = 103 ∧
     (loadSettings rawAllFF s).1.wireDiameter = 0.2 ∧
     (loadSettings rawAllFF s).1.initialStepDelay = 1000 ∧
     (loadSettings rawAllFF s).1.accelSteps = 400 ∧
     (loadSettings rawAllFF s).1.bobbinLength = 60 ∧
     (loadSettings rawAllFF s).1.bobbinWidth = 4 ∧
     (loadSettings rawAllFF s).1.bobbinHeight = 9 ∧
     (loadSettings rawAllFF s).1.lastCalcRequestedResistance = 0 ∧
     (loadSettings rawAllFF s).1.sweepControlMode = SweepControlMode.firmware) ∧
    (loadSettings rawAllFF s).1.timeoutLimit = 4294967295 := by
  rw [loadSettings_allFF s h]
  obtain ⟨q, hq⟩ := calculateAvgTurnLength_shape
    { s with servoMinAngle := 77, servoMaxAngle := 103, wireDiameter := 0.2,
             initialStepDelay := 1000, timeoutLimit := 4294967295, accelSteps := 400,
             bobbinLength := 60, bobbinWidth := 4, bobbinHeight := 9,
             lastCalcRequestedResistance := 0,
             sweepControlMode := SweepControlMode.firmware }
  rw [hq]
  norm_num

/-- Witness for `C2_amended` at the power-on state. -/
theorem C2_amended_witness :
    ((-1 : ℤ) ≤ initState.minStepDelay) ∧
    (loadSettings rawAllFF initState).1.sweepControlMode = SweepControlMode.firmware ∧
    (loadSettings rawAllFF initState).1.timeoutLimit = 4294967295 :=
  ⟨by norm_num [initState],
   (C2_amended initState (by norm_num [initState])).1.2.2.2.2.2.2.2.2.2,
   (C2_amended initState (by norm_num [initState])).2⟩

/-- Counterexample to the claim that `turnsPerLayer` is never less than 1:
    `WIRE_DIA 10` with the default bobbin height 9 (both positive) yields
    `turnsPerLayer = (long)(9 / 10) = 0` - `computeWindingParameters` has no
    minimum-1 clamp. -/
theorem C3_counterexample :
    okState (processCommand 0 rawAllFF ["WIRE_DIA", "10"] initState) = some afterWireDia10 ∧
    (0 : ℚ) < afterWireDia10.bobbinHeight ∧ (0 : ℚ) < afterWireDia10.wireDiameter ∧
    afterWireDia10.turnsPerLayer = 0 ∧ ¬ (1 ≤ afterWireDia10.turnsPerLayer) := by
  refine ⟨?_, by norm_num [afterWireDia10, initState], by norm_num [afterWireDia10, initState],
          by norm_num [afterWireDia10, initState], by norm_num [afterWireDia10, initState]⟩
  unfold processCommand
  rw [dispatch_wire_dia1]
  unfold wireDiaCmd
  rw [atofQ_ten]
  norm_num [updateAndValidate, computeWindingParameters, ratTrunc, calculateAvgTurnLength,
    okState, afterWireDia10, initState]

/-- Amended claim: after any operation that ends in `updateAndValidate`
    (BOBBIN, WIRE_DIA, SERVO CALIBRATE, SYS LOAD), `turnsPerLayer` equals
    the truncation of bobbinHeight divided by the validated (positive) wire
    diameter; it is at least 1 exactly when the diameter does not exceed
    the (positive) height - there is no minimum-1 clamp, so it is 0
    whenever the wire is thicker than the bobbin travel. -/
theorem C3_amended (s : WinderState) :
    0 < (updateAndValidate s).1.wireDiameter ∧
    (updateAndValidate s).1.turnsPerLayer =
      ratTrunc ((updateAndValidate s).1.bobbinHeight / (updateAndValidate s).1.wireDiameter) ∧
    ((0 : ℚ) < s.bobbinHeight →
      (1 ≤ (updateAndValidate s).1.turnsPerLayer ↔
        (updateAndValidate s).1.wireDiameter ≤ s.bobbinHeight)) := by
  refine ⟨uv_wireDiameter_pos s, by rw [uv_turnsPerLayer, uv_bobbinHeight], fun hh => ?_⟩
  rw [uv_turnsPerLayer]
  have hd := uv_wireDiameter_pos s
  rw [ratTrunc, if_pos (div_nonneg hh.le hd.le)]
  rw [Int.le_floor]
  push_cast
  exact one_le_div hd

/-- Witness for `C3_amended` at the power-on state. -/
theorem C3_amended_witness :
    (0 : ℚ) < initState.bobbinHeight ∧
    (1 ≤ (updateAndValidate initState).1.turnsPerLayer ↔
      (updateAndValidate initState).1.wireDiameter ≤ initState.bobbinHeight) :=
  ⟨by norm_num [initState], (C3_amended initState).2.2 (by norm_num [initState])⟩

lemma firmware_ne_pattern : SweepControlMode.firmware ≠ SweepControlMode.pattern := by
  decide

/-- Counterexample to the claim that WIND PAUSE disables outputs: from a
    reachable RUNNING state with outputs enabled, WIND PAUSE moves to
    PAUSED but `outputsEnabled` stays `true` - the handler sets only
    `running`/`paused` and never calls `disableOutputs()`. -/
theorem C4_counterexample :
    okState (cmdSeq 0 rawAllFF [["WIND", "START"]] initState) = some runningAfterStart ∧
    runningAfterStart.running = true ∧ runningAfterStart.outputsEnabled = true ∧
    okState (processCommand 0 rawAllFF ["WIND", "PAUSE"] runningAfterStart) =
      some pausedAfterStart ∧
    pausedAfterStart.paused = true ∧ pausedAfterStart.stepCount = 0 ∧
    pausedAfterStart.outputsEnabled = true := by
  refine ⟨?_, rfl, rfl, ?_, rfl, rfl, rfl⟩
  · unfold cmdSeq processCommand
    rw [dispatch_wind1, windCmd_start_noarg]
    norm_num [cmdSeq, okState, initState, runningAfterStart, firmware_ne_pattern]
  · unfold processCommand
    rw [dispatch_wind1, windCmd_pause]
    norm_num [okState, initState, runningAfterStart, pausedAfterStart]

/-- Amended claim: WIND PAUSE is accepted only while RUNNING and moves to
    PAUSED retaining `stepCount` exactly but leaving the outputs in their
    current (enabled) state; WIND RESUME is accepted only while PAUSED,
    re-runs `enableOutputs()` and returns to RUNNING with the same
    `stepCount`, so a PAUSE/RESUME pair neither loses nor duplicates a
    pulse. -/
theorem C4_amended (now now2 : ℕ) (raw : RawLoaded) (s : WinderState) :
    (s.running = true → processCommand now raw ["WIND", "PAUSE"] s =
      .ok { s with lastCommandTime := now, running := false, paused := true }
        [Msg.status "Winding PAUSED"]) ∧
    (s.running = false → processCommand now raw ["WIND", "PAUSE"] s =
      .ok { s with lastCommandTime := now } []) ∧
    (s.paused = true → processCommand now raw ["WIND", "RESUME"] s =
      .ok { s with lastCommandTime := now, enPinEnabled := true, servoAttached := true,
                   outputsEnabled := true, running := true, paused := false }
        [Msg.status "Outputs ENABLED", Msg.status "Winding RESUMED"]) ∧
    (s.paused = false → processCommand now raw ["WIND", "RESUME"] s =
      .ok { s with lastCommandTime := now } []) ∧
    (s.running = true → processCommand now2 raw ["WIND", "RESUME"]
        ({ s with lastCommandTime := now, running := false, paused := true }) =
      .ok { s with lastCommandTime := now2, enPinEnabled := true, servoAttached := true,
                   outputsEnabled := true, running := true, paused := false }
        [Msg.status "Outputs ENABLED", Msg.status "Winding RESUMED"]) := by
  refine ⟨fun h => ?_, fun h => ?_, fun h => ?_, fun h => ?_, fun _ => ?_⟩
  · unfold processCommand
    rw [dispatch_wind1, windCmd_pause]
    simp [h]
  · unfold processCommand
    rw [dispatch_wind1, windCmd_pause]
    simp [h]
  · unfold processCommand
    rw [dispatch_wind1, windCmd_resume]
    simp [h]
  · unfold processCommand
    rw [dispatch_wind1, windCmd_resume]
    simp [h]
  · unfold processCommand
    rw [dispatch_wind1, windCmd_resume]
    simp

/-- Witness for `C4_amended` at a reachable RUNNING state. -/
theorem C4_amended_witness :
    runningAfterStart.running = true ∧
    processCommand 1 rawAllFF ["WIND", "PAUSE"] runningAfterStart =
      .ok { runningAfterStart with lastCommandTime := 1, running := false, paused := true }
        [Msg.status "Winding PAUSED"] :=
  ⟨rfl, (C4_amended 1 2 rawAllFF runningAfterStart).1 rfl⟩

/-- The claim that `WIND SWEEP` with no mode argument completes as a
    harmless no-op is refuted by the code: the handler passes the null
    token straight to `strcmp(mode, "FIRMWARE")` - a null-pointer
    dereference (undefined behaviour), the only argument-taking handler
    with no null check. -/
theorem C5_wind_sweep_missing_mode (now : ℕ) (raw : RawLoaded) (s : WinderState) :
    processCommand now raw ["WIND", "SWEEP"] s = CmdResult.undef := by
  unfold processCommand
  rw [dispatch_wind1]
  exact windCmd_sweep_noarg _

/-- Counterexample to the claim that a timed-out job can never be resumed:
    PAUSE leaves outputs enabled, so the timeout fires while PAUSED; it
    clears `running` and disables outputs but leaves `paused` set, and a
    subsequent WIND RESUME re-enables outputs and puts the job back into
    RUNNING. -/
theorem C6_counterexample :
    okState (cmdSeq 0 rawAllFF [["WIND", "START"], ["WIND", "PAUSE"]] initState) =
      some pausedAfterStart ∧
    pausedAfterStart.paused = true ∧ pausedAfterStart.outputsEnabled = true ∧
    pausedAfterStart.timeoutLimit = 10000 ∧ pausedAfterStart.lastCommandTime = 0 ∧
    (checkTimeout 20000 pausedAfterStart).1 = c6Timeout ∧
    c6Timeout.running = false ∧ c6Timeout.outputsEnabled = false ∧ c6Timeout.paused = true ∧
    okState (processCommand 20001 rawAllFF ["WIND", "RESUME"] c6Timeout) = some c6Resumed ∧
    c6Resumed.running = true ∧ c6Resumed.outputsEnabled = true := by
  refine ⟨?_, rfl, rfl, rfl, rfl, ?_, rfl, rfl, rfl, ?_, rfl, rfl⟩
  · unfold cmdSeq processCommand
    rw [dispatch_wind1, windCmd_start_noarg]
    norm_num [cmdSeq, processCommand, okState, initState, firmware_ne_pattern]
    rw [dispatch_wind1, windCmd_pause]
    norm_num [okState, initState, pausedAfterStart, runningAfterStart]
  · unfold checkTimeout
    rw [if_pos (by norm_num [pausedAfterStart, runningAfterStart, initState]),
        if_pos (by rfl)]
    norm_num [disableOutputs, pausedAfterStart, runningAfterStart, initState, c6Timeout]
  · unfold processCommand
    rw [dispatch_wind1, windCmd_resume]
    norm_num [okState, c6Timeout, c6Resumed, pausedAfterStart, runningAfterStart, initState]

/-- Amended claim: when the time since the last command exceeds
    timeoutLimit with outputs enabled, the supervisor disables outputs and
    clears `running` - but it does not clear `paused`.  A job that was
    RUNNING (not paused) at the timeout can indeed never be resumed: a
    later WIND RESUME is a no-op.  A job that was PAUSED remains
    resumable (see the counterexample). -/
theorem C6_amended (now now2 : ℕ) (raw : RawLoaded) (s : WinderState) :
    (s.timeoutLimit < now - s.lastCommandTime → s.outputsEnabled = true →
      checkTimeout now s =
        ({ s with enPinEnabled := false, servoAttached := false, outputsEnabled := false,
                  running := false },
         [Msg.status "Outputs DISABLED", Msg.status "AUTO-TIMEOUT - Outputs disabled"])) ∧
    (¬ (s.timeoutLimit < now - s.lastCommandTime) → checkTimeout now s = (s, [])) ∧
    (s.timeoutLimit < now - s.lastCommandTime → s.outputsEnabled = true → s.paused = false →
      processCommand now2 raw ["WIND", "RESUME"] (checkTimeout now s).1 =
        .ok { s with enPinEnabled := false, servoAttached := false, outputsEnabled := false,
                     running := false, lastCommandTime := now2 } []) := by
  refine ⟨fun h1 h2 => ?_, fun h1 => ?_, fun h1 h2 h3 => ?_⟩
  · unfold checkTimeout
    rw [if_pos h1, if_pos h2]
    simp [disableOutputs]
  · unfold checkTimeout
    rw [if_neg h1]
  · unfold checkTimeout
    rw [if_pos h1, if_pos h2]
    unfold processCommand
    rw [dispatch_wind1, windCmd_resume]
    simp [disableOutputs, h3]

/-- Witness for `C6_amended`: a RUNNING (non-paused) job at the timeout is
    not resumable. -/
theorem C6_amended_witness :
    runningAfterStart.timeoutLimit < 20000 - runningAfterStart.lastCommandTime ∧
    runningAfterStart.outputsEnabled = true ∧ runningAfterStart.paused = false ∧
    processCommand 20001 rawAllFF ["WIND", "RESUME"] (checkTimeout 20000 runningAfterStart).1 =
      .ok { runningAfterStart with enPinEnabled := false, servoAttached := false,
                                   outputsEnabled := false, running := false,
                                   lastCommandTime := 20001 } [] :=
  ⟨by norm_num [runningAfterStart, initState], rfl, rfl,
   (C6_amended 20000 20001 rawAllFF runningAfterStart).2.2
     (by norm_num [runningAfterStart, initState]) rfl rfl⟩

/-! `lastCommandTime` preservation: no code path after the stamp at the top
    of `processCommand` ever writes `lastCommandTime` again. -/

lemma lct_calculateAvgTurnLength (s : WinderState) :
    (calculateAvgTurnLength s).lastCommandTime = s.lastCommandTime := by
  unfold calculateAvgTurnLength
  split <;> rfl

lemma lct_updateAndValidate (s : WinderState) :
    (updateAndValidate s).1.lastCommandTime = s.lastCommandTime := by
  simp only [updateAndValidate, computeWindingParameters]
  split_ifs <;> rfl

lemma lct_loadSettings (r : RawLoaded) (s : WinderState) :
    (loadSettings r s).1.lastCommandTime = s.lastCommandTime := by
  simp only [loadSettings]
  rw [lct_calculateAvgTurnLength]

lemma lct_calcLoop_error (n : ℕ) :
    ∀ (c : ℤ) (t a : ℚ) (s sE : WinderState),
      calcLoop n c t a s = .error sE → sE.lastCommandTime = s.lastCommandTime := by
  induction n with
  | zero =>
    intro c t a s sE h
    simp [calcLoop] at h
  | succ n ih =>
    intro c t a s sE h
    simp only [calcLoop] at h
    split at h
    · simp only [Except.error.injEq] at h
      rw [← h]
      simp [lct_calculateAvgTurnLength]
    · have h2 := ih _ t a _ sE h
      rw [h2, lct_calculateAvgTurnLength]

lemma lct_calcLoop_ok (n : ℕ) :
    ∀ (c z : ℤ) (t a : ℚ) (s s1 : WinderState),
      calcLoop n c t a s = .ok (s1, z) → s1.lastCommandTime = s.lastCommandTime := by
  induction n with
  | zero =>
    intro c z t a s s1 h
    simp only [calcLoop, Except.ok.injEq, Prod.mk.injEq] at h
    rw [← h.1]
  | succ n ih =>
    intro c z t a s s1 h
    simp only [calcLoop] at h
    split at h
    · simp at h
    · have h2 := ih _ z t a _ s1 h
      rw [h2, lct_calculateAvgTurnLength]

lemma lct_calcRun (t : ℚ) (s s1 : WinderState) (out : List Msg)
    (h : calcRun t s = .ok s1 out) : s1.lastCommandTime = s.lastCommandTime := by
  simp only [calcRun] at h
  split at h
  · simp only [CmdResult.ok.injEq] at h
    rw [← h.1]
  · split at h
    case _ sErr heq =>
      simp only [CmdResult.ok.injEq] at h
      rw [← h.1, lct_calcLoop_error 10 _ _ _ _ _ heq]
    case _ p heq =>
      simp only [CmdResult.ok.injEq] at h
      rw [← h.1, lct_calculateAvgTurnLength, lct_calcLoop_ok 10 _ _ _ _ _ _ heq]

lemma lct_windStart (argv : List String) (s s1 : WinderState) (out : List Msg)
    (h : windStart argv s = .ok s1 out) : s1.lastCommandTime = s.lastCommandTime := by
  unfold windStart at h
  simp only [CmdResult.ok.injEq] at h
  rw [← h.1]
  simp [enableOutputs]

lemma lct_windStop (s s1 : WinderState) (out : List Msg)
    (h : windStop s = .ok s1 out) : s1.lastCommandTime = s.lastCommandTime := by
  unfold windStop at h
  simp only [CmdResult.ok.injEq] at h
  rw [← h.1]

lemma lct_windPause (s s1 : WinderState) (out : List Msg)
    (h : windPause s = .ok s1 out) : s1.lastCommandTime = s.lastCommandTime := by
  unfold windPause at h
  split at h <;> (simp only [CmdResult.ok.injEq] at h; rw [← h.1])

lemma lct_windResume (s s1 : WinderState) (out : List Msg)
    (h : windResume s = .ok s1 out) : s1.lastCommandTime = s.lastCommandTime := by
  unfold windResume at h
  split at h <;> (simp only [CmdResult.ok.injEq] at h; rw [← h.1]) <;> simp [enableOutputs]

lemma lct_windCount (argv : List String) (s s1 : WinderState) (out : List Msg)
    (h : windCount argv s = .ok s1 out) : s1.lastCommandTime = s.lastCommandTime := by
  unfold windCount at h
  split at h <;> (simp only [CmdResult.ok.injEq] at h; rw [← h.1]) <;>
    simp [lct_calculateAvgTurnLength]

lemma lct_windSpeed (argv : List String) (s s1 : WinderState) (out : List Msg)
    (h : windSpeed argv s = .ok s1 out) : s1.lastCommandTime = s.lastCommandTime := by
  unfold windSpeed at h
  repeat' split at h
  all_goals (simp only [CmdResult.ok.injEq] at h; rw [← h.1])

lemma lct_windDir (argv : List String) (s s1 : WinderState) (out : List Msg)
    (h : windDir argv s = .ok s1 out) : s1.lastCommandTime = s.lastCommandTime := by
  unfold windDir at h
  split at h <;> (simp only [CmdResult.ok.injEq] at h; rw [← h.1])

lemma lct_windSweep (argv : List String) (s s1 : WinderState) (out : List Msg)
    (h : windSweep argv s = .ok s1 out) : s1.lastCommandTime = s.lastCommandTime := by
  unfold windSweep at h
  repeat' split at h
  all_goals first
    | (simp only [reduceCtorEq] at h)
    | (simp only [CmdResult.ok.injEq] at h; rw [← h.1])

lemma lct_windPattern (argv : List String) (s s1 : WinderState) (out : List Msg)
    (h : windPattern argv s = .ok s1 out) : s1.lastCommandTime = s.lastCommandTime := by
  unfold windPattern at h
  split at h <;> (simp only [CmdResult.ok.injEq] at h; rw [← h.1])

lemma lct_windScatter (argv : List String) (s s1 : WinderState) (out : List Msg)
    (h : windScatter argv s = .ok s1 out) : s1.lastCommandTime = s.lastCommandTime := by
  unfold windScatter at h
  split at h <;> (simp only [CmdResult.ok.injEq] at h; rw [← h.1])

lemma lct_windCmd (a : String) (argv : List String) (s s1 : WinderState) (out : List Msg)
    (h : windCmd a argv s = .ok s1 out) : s1.lastCommandTime = s.lastCommandTime := by
  unfold windCmd at h
  repeat' split at h
  all_goals first
    | (exact lct_windStart _ _ _ _ h)
    | (exact lct_windStop _ _ _ h)
    | (exact lct_windPause _ _ _ h)
    | (exact lct_windResume _ _ _ h)
    | (exact lct_windCount _ _ _ _ h)
    | (exact lct_windSpeed _ _ _ _ h)
    | (exact lct_windDir _ _ _ _ h)
    | (exact lct_windSweep _ _ _ _ h)
    | (exact lct_windPattern _ _ _ _ h)
    | (exact lct_windScatter _ _ _ _ h)
    | (simp only [CmdResult.ok.injEq] at h; rw [← h.1])

lemma lct_servoPosCmd (argv : List String) (s s1 : WinderState) (out : List Msg)
    (h : servoPosCmd argv s = .ok s1 out) : s1.lastCommandTime = s.lastCommandTime := by
  unfold servoPosCmd at h
  split at h <;> (simp only [CmdResult.ok.injEq] at h; rw [← h.1])

lemma lct_servoCalibrate (argv : List String) (s s1 : WinderState) (out : List Msg)
    (h : servoCalibrate argv s = .ok s1 out) : s1.lastCommandTime = s.lastCommandTime := by
  unfold servoCalibrate at h
  split at h <;> (simp only [CmdResult.ok.injEq] at h; rw [← h.1])
  simp [enableOutputs, disableOutputs, lct_updateAndValidate]

lemma lct_servoCmd (a : String) (argv : List String) (s s1 : WinderState) (out : List Msg)
    (h : servoCmd a argv s = .ok s1 out) : s1.lastCommandTime = s.lastCommandTime := by
  unfold servoCmd at h
  repeat' split at h
  all_goals first
    | (exact lct_servoPosCmd _ _ _ _ h)
    | (exact lct_servoCalibrate _ _ _ _ h)
    | (simp only [CmdResult.ok.injEq] at h; rw [← h.1]; try simp [enableServo, disableServo])

lemma lct_stepperMove (argv : List String) (s s1 : WinderState) (out : List Msg)
    (h : stepperMove argv s = .ok s1 out) : s1.lastCommandTime = s.lastCommandTime := by
  unfold stepperMove at h
  split at h <;> (simp only [CmdResult.ok.injEq] at h; rw [← h.1])
  simp [enableOutputs, disableOutputs]

lemma lct_stepperCmd (a : String) (argv : List String) (s s1 : WinderState) (out : List Msg)
    (h : stepperCmd a argv s = .ok s1 out) : s1.lastCommandTime = s.lastCommandTime := by
  unfold stepperCmd at h
  repeat' split at h
  all_goals first
    | (exact lct_stepperMove _ _ _ _ h)
    | (simp only [CmdResult.ok.injEq] at h; rw [← h.1])

lemma lct_sysCmd (raw : RawLoaded) (a : String) (s s1 : WinderState) (out : List Msg)
    (h : sysCmd raw a s = .ok s1 out) : s1.lastCommandTime = s.lastCommandTime := by
  unfold sysCmd at h
  repeat' split at h
  all_goals (simp only [CmdResult.ok.injEq] at h; rw [← h.1];
             try simp [lct_updateAndValidate, lct_loadSettings])

lemma lct_bobbinCmd (a : String) (argv : List String) (s s1 : WinderState) (out : List Msg)
    (h : bobbinCmd a argv s = .ok s1 out) : s1.lastCommandTime = s.lastCommandTime := by
  unfold bobbinCmd at h
  repeat' split at h
  all_goals (simp only [CmdResult.ok.injEq] at h; rw [← h.1];
             try simp [lct_calculateAvgTurnLength, lct_updateAndValidate])

lemma lct_wireDiaCmd (a : String) (s s1 : WinderState) (out : List Msg)
    (h : wireDiaCmd a s = .ok s1 out) : s1.lastCommandTime = s.lastCommandTime := by
  unfold wireDiaCmd at h
  simp only [CmdResult.ok.injEq] at h
  rw [← h.1, lct_calculateAvgTurnLength, lct_updateAndValidate]

lemma lct_calcCmd (a : String) (s s1 : WinderState) (out : List Msg)
    (h : calcCmd a s = .ok s1 out) : s1.lastCommandTime = s.lastCommandTime := by
  unfold calcCmd at h
  repeat' split at h
  all_goals
    first
      | (exact lct_calcRun _ _ _ _ h)
      | (simp only [CmdResult.ok.injEq] at h; rw [← h.1])

lemma lct_dispatchCommand (raw : RawLoaded) (tokens : List String) (s s1 : WinderState)
    (out : List Msg) (h : dispatchCommand raw tokens s = .ok s1 out) :
    s1.lastCommandTime = s.lastCommandTime := by
  unfold dispatchCommand at h
  by_cases c1 : strPre "TEST_LAYER" ((tokens.get? 0).getD "") = true
  · rw [if_pos c1] at h
    exact absurd h (by simp)
  rw [if_neg c1] at h
  by_cases c2 : tokens = ["TEST_STEPPER"]
  · rw [if_pos c2] at h
    simp only [CmdResult.ok.injEq] at h
    rw [← h.1]
    simp [enableOutputs, disableOutputs]
  rw [if_neg c2] at h
  by_cases c3 : (tokens.get? 0).getD "" = "TEST_STEPPER_MOVE" ∧ 2 ≤ tokens.length
  · rw [if_pos c3] at h
    exact absurd h (by simp)
  rw [if_neg c3] at h
  by_cases c4 : tokens = ["RESTORE_DEFAULTS"]
  · rw [if_pos c4] at h
    simp only [CmdResult.ok.injEq] at h
    rw [← h.1]
    simp [lct_updateAndValidate, lct_loadSettings]
  rw [if_neg c4] at h
  by_cases c5 : tokens = ["STATUS"]
  · rw [if_pos c5] at h
    simp only [CmdResult.ok.injEq] at h
    rw [← h.1]
  rw [if_neg c5] at h
  cases tokens with
  | nil =>
    simp only [CmdResult.ok.injEq] at h
    rw [← h.1]
  | cons c rest =>
    simp only [] at h
    by_cases w1 : c = "WIND"
    · rw [if_pos w1] at h
      exact lct_windCmd _ _ _ _ _ h
    rw [if_neg w1] at h
    by_cases w2 : c = "SERVO"
    · rw [if_pos w2] at h
      exact lct_servoCmd _ _ _ _ _ h
    rw [if_neg w2] at h
    by_cases w3 : c = "STEPPER"
    · rw [if_pos w3] at h
      exact lct_stepperCmd _ _ _ _ _ h
    rw [if_neg w3] at h
    by_cases w4 : c = "SYS"
    · rw [if_pos w4] at h
      exact lct_sysCmd _ _ _ _ _ h
    rw [if_neg w4] at h
    by_cases w5 : c = "BOBBIN"
    · rw [if_pos w5] at h
      exact lct_bobbinCmd _ _ _ _ _ h
    rw [if_neg w5] at h
    by_cases w6 : c = "WIRE_DIA"
    · rw [if_pos w6] at h
      exact lct_wireDiaCmd _ _ _ _ h
    rw [if_neg w6] at h
    by_cases w7 : c = "CALC"
    · rw [if_pos w7] at h
      exact lct_calcCmd _ _ _ _ h
    rw [if_neg w7] at h
    simp only [CmdResult.ok.injEq] at h
    rw [← h.1]

/-- Counterexample to the two halves of the claim: `WIND FLY` (a known
    component with an unknown action) produces no report at all, and both
    it and the fully unknown `FOO` reset the timeout clock even though
    neither is an accepted command - `processCommand` stamps
    `lastCommandTime = millis()` before any parsing. -/
theorem C7_counterexample :
    processCommand 5 rawAllFF ["WIND", "FLY"] initState =
      .ok { initState with lastCommandTime := 5 } [] ∧
    processCommand 7 rawAllFF ["FOO"] initState =
      .ok { initState with lastCommandTime := 7 } [Msg.error "Unknown command."] ∧
    initState.lastCommandTime = 0 ∧ (5 : ℕ) ≠ 0 ∧ (7 : ℕ) ≠ 0 := by
  refine ⟨?_, ?_, rfl, by decide, by decide⟩
  · unfold processCommand
    rw [dispatch_wind1]
    unfold windCmd
    rw [if_neg (by decide), if_neg (by decide), if_neg (by decide), if_neg (by decide),
        if_neg (by decide), if_neg (by decide), if_neg (by decide), if_neg (by decide),
        if_neg (by decide), if_neg (by decide)]
  · unfold processCommand dispatchCommand
    rw [if_neg (by decide), if_neg (by decide), if_neg (by decide), if_neg (by decide),
        if_neg (by decide)]
    simp

/-- Amended claim: a command with an unknown component yields the
    "Unknown command." error and changes no state other than the timeout
    clock; an unknown action under a known component is silently ignored
    (no report); and `lastCommandTime` is reset by every processed command
    line - accepted, rejected or unknown - because the dispatcher stamps
    it on entry before parsing. -/
theorem C7_amended :
    (∀ (now : ℕ) (raw : RawLoaded) (s : WinderState) (c : String) (rest : List String),
      strPre "TEST_LAYER" c = false →
      c ∉ (["TEST_STEPPER", "TEST_STEPPER_MOVE", "RESTORE_DEFAULTS", "STATUS", "WIND",
            "SERVO", "STEPPER", "SYS", "BOBBIN", "WIRE_DIA", "CALC"] : List String) →
      processCommand now raw (c :: rest) s =
        .ok { s with lastCommandTime := now } [Msg.error "Unknown command."]) ∧
    (∀ (now : ℕ) (raw : RawLoaded) (tokens : List String) (s s1 : WinderState)
       (out : List Msg),
      processCommand now raw tokens s = .ok s1 out → s1.lastCommandTime = now) := by
  constructor
  · intro now raw s c rest h1 h2
    simp only [List.mem_cons, List.mem_singleton, not_or] at h2
    obtain ⟨n1, n2, n3, n4, n5, n6, n7, n8, n9, n10, n11, -⟩ := h2
    unfold processCommand dispatchCommand
    rw [if_neg (by simp [h1]), if_neg (by simp [n1]), if_neg (by simp [n2]),
        if_neg (by simp [n3]), if_neg (by simp [n4])]
    simp only []
    rw [if_neg n5, if_neg n6, if_neg n7, if_neg n8, if_neg n9, if_neg n10, if_neg n11]
  · intro now raw tokens s s1 out h
    unfold processCommand at h
    rw [lct_dispatchCommand raw tokens _ s1 out h]

/-- Witness for `C7_amended`: the unknown command line `FOO` at time 9. -/
theorem C7_amended_witness :
    processCommand 9 rawAllFF ["FOO"] initState =
      .ok { initState with lastCommandTime := 9 } [Msg.error "Unknown command."] :=
  C7_amended.1 9 rawAllFF initState "FOO" [] (by decide) (by decide)

/-! The S-curve ramp (claim C8). -/

/-- C truncation agrees with the floor on non-negative reals. -/
lemma truncR_of_nonneg (x : ℝ) (hx : 0 ≤ x) : truncR x = ⌊x⌋ := if_pos hx

/-- Closed form of `calculateSCurveDelay`. -/
lemma calculateSCurveDelay_eq (I m i N : ℤ) :
    calculateSCurveDelay I m i N =
      I - truncR (((I - m : ℤ) : ℝ) *
        ((1 - Real.cos ((i : ℝ) / (N : ℝ) * Real.pi)) / 2)) := rfl

/-- The cosine S-curve multiplier is non-negative. -/
lemma scurve_multiplier_nonneg (x : ℝ) : 0 ≤ (1 - Real.cos x) / 2 := by
  have h := Real.cos_le_one x
  linarith

/-- The cosine factor decreases along the ramp. -/
lemma scurve_cos_mono (N i j : ℤ) (hN : 0 < N) (h0 : 0 ≤ i) (hij : i ≤ j) (hjN : j ≤ N) :
    Real.cos ((j : ℝ) / (N : ℝ) * Real.pi) ≤ Real.cos ((i : ℝ) / (N : ℝ) * Real.pi) := by
  have hNR : (0 : ℝ) < (N : ℝ) := by exact_mod_cast hN
  apply Real.cos_le_cos_of_nonneg_of_le_pi
  · exact mul_nonneg (div_nonneg (by exact_mod_cast h0) hNR.le) Real.pi_pos.le
  · have h1 : (j : ℝ) / (N : ℝ) ≤ 1 := by
      rw [div_le_one hNR]
      exact_mod_cast hjN
    calc (j : ℝ) / (N : ℝ) * Real.pi ≤ 1 * Real.pi :=
          mul_le_mul_of_nonneg_right h1 Real.pi_pos.le
      _ = Real.pi := one_mul _
  · exact mul_le_mul_of_nonneg_right
      ((div_le_div_right hNR).mpr (by exact_mod_cast hij)) Real.pi_pos.le

/-- The S-curve delay is non-increasing along the ramp. -/
lemma calculateSCurveDelay_antitone (I m N : ℤ) (hN : 0 < N) (hIm : m < I)
    (i j : ℤ) (h0 : 0 ≤ i) (hij : i ≤ j) (hjN : j ≤ N) :
    calculateSCurveDelay I m j N ≤ calculateSCurveDelay I m i N := by
  rw [calculateSCurveDelay_eq, calculateSCurveDelay_eq]
  have hr : (0 : ℝ) ≤ ((I - m : ℤ) : ℝ) := by
    have h2 : (0 : ℤ) ≤ I - m := by omega
    exact_mod_cast h2
  have hmi := scurve_multiplier_nonneg ((i : ℝ) / (N : ℝ) * Real.pi)
  have hmj := scurve_multiplier_nonneg ((j : ℝ) / (N : ℝ) * Real.pi)
  have hcos := scurve_cos_mono N i j hN h0 hij hjN
  have hmono : (1 - Real.cos ((i : ℝ) / (N : ℝ) * Real.pi)) / 2 ≤
      (1 - Real.cos ((j : ℝ) / (N : ℝ) * Real.pi)) / 2 := by linarith
  rw [truncR_of_nonneg _ (mul_nonneg hr hmi), truncR_of_nonneg _ (mul_nonneg hr hmj)]
  have hfl : ⌊((I - m : ℤ) : ℝ) * ((1 - Real.cos ((i : ℝ) / (N : ℝ) * Real.pi)) / 2)⌋ ≤
      ⌊((I - m : ℤ) : ℝ) * ((1 - Real.cos ((j : ℝ) / (N : ℝ) * Real.pi)) / 2)⌋ :=
    Int.floor_le_floor (mul_le_mul_of_nonneg_left hmono hr)
  omega

/-- The ramp delay function satisfies every property the spec lists for it:
    delay(0) = initialStepDelay, delay(N) = minStepDelay, delay is
    monotonically non-increasing over the ramp, the deceleration sequence
    (the same function read at mirrored indices, exactly as
    `stepWithAcceleration` does) is monotonically non-decreasing, and no
    emitted pulse delay is ever below minStepDelay (the final clamp in
    `stepWithAcceleration`). -/
theorem C8_scurve_ramp (I m N : ℤ) (hN : 0 < N) (hIm : m < I) :
    calculateSCurveDelay I m 0 N = I ∧
    calculateSCurveDelay I m N N = m ∧
    (∀ i j : ℤ, 0 ≤ i → i ≤ j → j ≤ N →
      calculateSCurveDelay I m j N ≤ calculateSCurveDelay I m i N) ∧
    (∀ k1 k2 : ℤ, 0 ≤ k1 → k1 ≤ k2 → k2 ≤ N →
      calculateSCurveDelay I m (N - k1) N ≤ calculateSCurveDelay I m (N - k2) N) ∧
    (∀ s : WinderState, s.minStepDelay ≤ stepWithAcceleration s) := by
  refine ⟨?_, ?_, fun i j h0 hij hjN => calculateSCurveDelay_antitone I m N hN hIm i j h0 hij hjN,
          fun k1 k2 hk1 hk12 hk2N => ?_, fun s => ?_⟩
  · rw [calculateSCurveDelay_eq]
    norm_num [truncR_of_nonneg]
  · rw [calculateSCurveDelay_eq]
    have hNne : ((N : ℝ)) ≠ 0 := by
      have hNR : (0 : ℝ) < (N : ℝ) := by exact_mod_cast hN
      exact ne_of_gt hNR
    rw [div_self hNne, one_mul, Real.cos_pi]
    have h2 : ((1 : ℝ) - (-1)) / 2 = 1 := by norm_num
    rw [h2, mul_one, truncR_of_nonneg _ (by
      have h3 : (0 : ℤ) ≤ I - m := by omega
      exact_mod_cast h3), Int.floor_intCast]
    omega
  · exact calculateSCurveDelay_antitone I m N hN hIm (N - k2) (N - k1)
      (by omega) (by omega) (by omega)
  · have hclamp : ∀ d : ℤ, s.minStepDelay ≤ if d < s.minStepDelay then s.minStepDelay else d := by
      intro d
      split_ifs with hlt
      · exact le_refl _
      · exact le_of_not_lt hlt
    exact hclamp _

/-- Witness for `C8_scurve_ramp` at the firmware defaults
    (initialStepDelay 1000, minStepDelay 300, accelSteps 400). -/
theorem C8_scurve_ramp_witness :
    (0 : ℤ) < 400 ∧ (300 : ℤ) < 1000 ∧
    calculateSCurveDelay 1000 300 0 400 = 1000 ∧
    calculateSCurveDelay 1000 300 400 400 = 300 :=
  ⟨by decide, by decide, (C8_scurve_ramp 1000 300 400 (by decide) (by decide)).1,
   (C8_scurve_ramp 1000 300 400 (by decide) (by decide)).2.1⟩

/-! The guide sweep geometry (claim C9). -/

/-- The position `updateServoPosition` computes in the multi-turn case. -/
lemma updateServoPosition_eq (spt cs N : ℤ) (minA maxA sc : ℚ)
    (hspt : spt ≠ 0) (hN : 1 < N) :
    updateServoPosition spt cs N minA maxA sc =
      some (if ((cs.tdiv spt).tdiv N).tmod 2 = 0 then
              effectiveMinAngle minA maxA sc + ((cs.tdiv spt).tmod N : ℚ) *
                ((effectiveMaxAngle minA maxA sc - effectiveMinAngle minA maxA sc) /
                  ((N - 1 : ℤ) : ℚ))
            else
              effectiveMaxAngle minA maxA sc - ((cs.tdiv spt).tmod N : ℚ) *
                ((effectiveMaxAngle minA maxA sc - effectiveMinAngle minA maxA sc) /
                  ((N - 1 : ℤ) : ℚ))) := by
  unfold updateServoPosition
  rw [if_neg (by push_neg; exact ⟨hspt, by omega⟩), if_neg (by omega)]

/-- The scattered sweep range is non-negative under the claim's bounds. -/
lemma effective_range_nonneg (minA maxA sc : ℚ) (hA : minA ≤ maxA) (hsc1 : sc ≤ 100) :
    0 ≤ effectiveMaxAngle minA maxA sc - effectiveMinAngle minA maxA sc := by
  have h1 : (0 : ℚ) ≤ (maxA - minA) * (1 - sc / 100) :=
    mul_nonneg (by linarith) (by linarith)
  have h2 : effectiveMaxAngle minA maxA sc - effectiveMinAngle minA maxA sc =
      (maxA - minA) * (1 - sc / 100) := by
    unfold effectiveMinAngle effectiveMaxAngle
    ring
  rw [h2]
  exact h1

/-- Guide sweep geometry: with more than one turn per layer, nominal
    `minAngle < maxAngle` and a scatter percentage in [0, 100], the
    computed guide position always lies in [effectiveMin, effectiveMax];
    at `turnInLayer = 0` it equals effectiveMin on even layers and
    effectiveMax on odd layers; and with zero scatter the effective bounds
    coincide with the nominal bounds. -/
theorem C9_guide_sweep (spt cs N : ℤ) (minA maxA sc : ℚ)
    (hspt : 0 < spt) (hcs : 0 ≤ cs) (hN : 1 < N)
    (hA : minA < maxA) (hsc0 : 0 ≤ sc) (hsc1 : sc ≤ 100) :
    (∀ a b : ℚ, effectiveMinAngle a b 0 = a ∧ effectiveMaxAngle a b 0 = b) ∧
    (updateServoPosition spt cs N minA maxA sc).isSome = true ∧
    (∀ pos : ℚ, updateServoPosition spt cs N minA maxA sc = some pos →
      effectiveMinAngle minA maxA sc ≤ pos ∧ pos ≤ effectiveMaxAngle minA maxA sc ∧
      ((cs.tdiv spt).tmod N = 0 →
        pos = if ((cs.tdiv spt).tdiv N).tmod 2 = 0 then effectiveMinAngle minA maxA sc
              else effectiveMaxAngle minA maxA sc)) := by
  have hzero : ∀ a b : ℚ, effectiveMinAngle a b 0 = a ∧ effectiveMaxAngle a b 0 = b := by
    intro a b
    constructor
    · unfold effectiveMinAngle
      ring
    · unfold effectiveMaxAngle
      ring
  have heq := updateServoPosition_eq spt cs N minA maxA sc (by omega) hN
  refine ⟨hzero, by rw [heq]; rfl, ?_⟩
  intro pos hpos
  rw [heq] at hpos
  have hcur : 0 ≤ cs.tdiv spt := Int.tdiv_nonneg hcs hspt.le
  have htmod : (cs.tdiv spt).tmod N = (cs.tdiv spt) % N :=
    Int.tmod_eq_emod hcur (by omega)
  have ht0 : 0 ≤ (cs.tdiv spt).tmod N := by
    rw [htmod]
    exact Int.emod_nonneg _ (by omega)
  have htN : (cs.tdiv spt).tmod N < N := by
    rw [htmod]
    exact Int.emod_lt_of_pos _ (by omega)
  have htQ0 : (0 : ℚ) ≤ (((cs.tdiv spt).tmod N : ℤ) : ℚ) := by exact_mod_cast ht0
  have htQN : (((cs.tdiv spt).tmod N : ℤ) : ℚ) ≤ ((N - 1 : ℤ) : ℚ) := by
    have h3 : (cs.tdiv spt).tmod N ≤ N - 1 := by omega
    exact_mod_cast h3
  have hNQ : ((N - 1 : ℤ) : ℚ) ≠ 0 := by
    have h4 : (N - 1 : ℤ) ≠ 0 := by omega
    exact_mod_cast h4
  have hEnn := effective_range_nonneg minA maxA sc hA.le hsc1
  have hpitch : 0 ≤ (effectiveMaxAngle minA maxA sc - effectiveMinAngle minA maxA sc) /
      ((N - 1 : ℤ) : ℚ) := by
    apply div_nonneg hEnn
    have h5 : (0 : ℤ) ≤ N - 1 := by omega
    exact_mod_cast h5
  have hprod0 : 0 ≤ (((cs.tdiv spt).tmod N : ℤ) : ℚ) *
      ((effectiveMaxAngle minA maxA sc - effectiveMinAngle minA maxA sc) /
        ((N - 1 : ℤ) : ℚ)) := mul_nonneg htQ0 hpitch
  have hprodE : (((cs.tdiv spt).tmod N : ℤ) : ℚ) *
      ((effectiveMaxAngle minA maxA sc - effectiveMinAngle minA maxA sc) /
        ((N - 1 : ℤ) : ℚ)) ≤
      effectiveMaxAngle minA maxA sc - effectiveMinAngle minA maxA sc := by
    calc (((cs.tdiv spt).tmod N : ℤ) : ℚ) *
        ((effectiveMaxAngle minA maxA sc - effectiveMinAngle minA maxA sc) /
          ((N - 1 : ℤ) : ℚ)) ≤
        ((N - 1 : ℤ) : ℚ) *
          ((effectiveMaxAngle minA maxA sc - effectiveMinAngle minA maxA sc) /
            ((N - 1 : ℤ) : ℚ)) := mul_le_mul_of_nonneg_right htQN hpitch
      _ = effectiveMaxAngle minA maxA sc - effectiveMinAngle minA maxA sc := by
          rw [mul_comm, div_mul_cancel₀ _ hNQ]
  split_ifs at hpos with hpar
  · simp only [Option.some.injEq] at hpos
    refine ⟨by rw [← hpos]; linarith, by rw [← hpos]; linarith, fun hturn => ?_⟩
    rw [if_pos hpar, ← hpos, hturn]
    norm_num
  · simp only [Option.some.injEq] at hpos
    refine ⟨by rw [← hpos]; linarith, by rw [← hpos]; linarith, fun hturn => ?_⟩
    rw [if_neg hpar, ← hpos, hturn]
    norm_num

/-- Witness for `C9_guide_sweep` at the 45-turn layer of the spec scenario
    (stepsPerTurn 3200, one completed rotation). -/
theorem C9_guide_sweep_witness :
    (updateServoPosition 3200 3200 45 77 103 0).isSome = true ∧
    (∀ pos : ℚ, updateServoPosition 3200 3200 45 77 103 0 = some pos →
      effectiveMinAngle 77 103 0 ≤ pos ∧ pos ≤ effectiveMaxAngle 77 103 0 ∧
      (((3200 : ℤ).tdiv 3200).tmod 45 = 0 →
        pos = if (((3200 : ℤ).tdiv 3200).tdiv 45).tmod 2 = 0 then effectiveMinAngle 77 103 0
              else effectiveMaxAngle 77 103 0)) :=
  ⟨(C9_guide_sweep 3200 3200 45 77 103 0 (by decide) (by decide) (by decide)
      (by norm_num) (by norm_num) (by norm_num)).2.1,
   (C9_guide_sweep 3200 3200 45 77 103 0 (by decide) (by decide) (by decide)
      (by norm_num) (by norm_num) (by norm_num)).2.2⟩

/-! Claim C10: the division by zero in PATTERN sweep mode. -/

/-- `updateServoPosition` executes the divisions by `totalTurnsInLayer`
    before the `<= 1` guard, so a zero value is undefined behaviour for
    every other argument. -/
lemma updateServoPosition_zero (spt cs : ℤ) (minA maxA sc : ℚ) :
    updateServoPosition spt cs 0 minA maxA sc = none := by
  unfold updateServoPosition
  rw [if_pos (Or.inr rfl)]

lemma c10At_running (k : ℕ) : (c10At k).running = true := rfl

lemma c10At_outputs (k : ℕ) : (c10At k).outputsEnabled = true := rfl

lemma c10At_stepCount (k : ℕ) : (c10At k).stepCount = (k : ℤ) := rfl

lemma c10At_totalSteps (k : ℕ) : (c10At k).totalSteps = 32000 := rfl

lemma c10At_stepsPerTurn (k : ℕ) : (c10At k).stepsPerTurn = 3200 := rfl

lemma c10At_verbose (k : ℕ) : (c10At k).verboseMode = false := rfl

lemma c10At_sweepMode (k : ℕ) : (c10At k).sweepControlMode = SweepControlMode.pattern := rfl

lemma c10At_patternTPL (k : ℕ) : (c10At k).patternTurnsPerLayer = 0 := rfl

lemma c10At_timeout (k : ℕ) : (c10At k).timeoutLimit = 10000 := rfl

lemma c10At_lct (k : ℕ) : (c10At k).lastCommandTime = 0 := rfl

/-- The safety timeout never fires on the C10 trace (clock at 0). -/
lemma c10_checkTimeout (k : ℕ) : checkTimeout 0 (c10At k) = (c10At k, []) := by
  unfold checkTimeout
  rw [if_neg (by rw [c10At_timeout, c10At_lct]; norm_num)]

lemma c10_succ (k : ℕ) : c10At (k + 1) = { c10At k with stepCount := (k : ℤ) + 1 } := by
  unfold c10At
  push_cast
  rfl

/-- Off the rotation boundary, one run-loop tick just increments
    `stepCount`. -/
lemma c10_tick (k : ℕ) (hk : k ≤ 3198) :
    loopTickState 0 (c10At k) = some (c10At (k + 1)) := by
  have h1 : (k : ℤ) < 32000 := by omega
  have h2 : ¬ ((k : ℤ) + 1).tmod 3200 = 0 := by
    rw [Int.tmod_eq_emod (by omega) (by omega)]
    omega
  have h3 : ¬ ((32000 : ℤ) ≤ (k : ℤ) + 1) := by omega
  rw [c10_succ]
  unfold loopTickState loopTick
  rw [c10_checkTimeout]
  norm_num [c10At_running, c10At_outputs, c10At_stepCount, c10At_totalSteps,
    c10At_stepsPerTurn, c10At_verbose, h1, h2, h3]

/-- At pulse 3200 - the first rotation boundary - the sweep update runs
    with `patternTurnsPerLayer = 0` and divides by zero. -/
lemma c10_crash : loopTickState 0 (c10At 3199) = none := by
  have h2 : ((3200 : ℤ)).tmod 3200 = 0 := by decide
  have h4 : ¬ (SweepControlMode.pattern = SweepControlMode.firmware) := by decide
  unfold loopTickState loopTick
  rw [c10_checkTimeout]
  norm_num [c10At_running, c10At_outputs, c10At_stepCount, c10At_totalSteps,
    c10At_stepsPerTurn, c10At_verbose, c10At_sweepMode, c10At_patternTPL,
    updateServoPosition_zero, h2, h4]

lemma iterTicks_succ (now n : ℕ) (s : WinderState) :
    iterTicks now (n + 1) s =
      match loopTickState now s with
      | none => none
      | some s1 => iterTicks now n s1 := rfl

lemma iterTicks_none (now n : ℕ) (s : WinderState) (h : loopTickState now s = none) :
    iterTicks now (n + 1) s = none := by
  rw [iterTicks_succ, h]

lemma iterTicks_some (now n : ℕ) (s s1 : WinderState) (h : loopTickState now s = some s1) :
    iterTicks now (n + 1) s = iterTicks now n s1 := by
  rw [iterTicks_succ, h]

/-- Running the loop from pulse `k` with `k + j = 3199` reaches the
    division by zero within `j + 1` ticks. -/
lemma c10_run (j : ℕ) : ∀ k : ℕ, k + j = 3199 → iterTicks 0 (j + 1) (c10At k) = none := by
  induction j with
  | zero =>
    intro k hk
    have hk9 : k = 3199 := by omega
    subst hk9
    exact iterTicks_none 0 0 _ c10_crash
  | succ j ih =>
    intro k hk
    rw [iterTicks_some 0 (j + 1) _ _ (c10_tick k (by omega))]
    exact ih (k + 1) (by omega)

/-- The command sequence `WIND COUNT 10; WIND SWEEP PATTERN; WIND START`
    (no prior `WIND PATTERN`) puts the machine into the RUNNING PATTERN
    state `c10At 0`. -/
lemma c10_reach : okState (cmdSeq 0 rawAllFF c10Cmds initState) = some (c10At 0) := by
  unfold c10Cmds cmdSeq processCommand
  rw [dispatch_wind2, windCmd_count, atolZ_ten]
  norm_num [calculateAvgTurnLength, ratTrunc, piFloat, initState, cmdSeq, processCommand]
  rw [dispatch_wind2, windCmd_sweep_pattern]
  norm_num [cmdSeq, processCommand]
  rw [dispatch_wind1, windCmd_start_noarg]
  norm_num [okState, cmdSeq, c10At, c10Base, initState, piFloat]

/-- Claim C10: `updateServoPosition` with `totalTurnsInLayer = 0` performs
    its integer divisions with a zero divisor before the `<= 1` guard, for
    every other argument (modelled as undefined behaviour, `none`); and the
    call is reachable from the public interface: `WIND COUNT 10`,
    `WIND SWEEP PATTERN`, `WIND START` without a prior valid `WIND PATTERN`
    leaves the machine RUNNING in PATTERN mode with `patternTurnsPerLayer`
    still at its initial 0, and the run loop hits the undefined call at the
    first rotation boundary, within the first 3200 pulses. -/
theorem C10_pattern_div_by_zero :
    (∀ (spt cs : ℤ) (minA maxA sc : ℚ),
      updateServoPosition spt cs 0 minA maxA sc = none) ∧
    okState (cmdSeq 0 rawAllFF c10Cmds initState) = some (c10At 0) ∧
    (c10At 0).sweepControlMode = SweepControlMode.pattern ∧
    (c10At 0).patternTurnsPerLayer = 0 ∧
    (c10At 0).running = true ∧
    iterTicks 0 3200 (c10At 0) = none := by
  refine ⟨fun spt cs minA maxA sc => updateServoPosition_zero spt cs minA maxA sc,
    c10_reach, rfl, rfl, rfl, ?_⟩
  exact c10_run 3199 0 (by omega)

end PickupWinder
